import Mathlib

/-!
Verification of the instance-to-infrastructure-code generation core of
src/ec2-to-terraform.py (class EC2ToTerraform).

The Python generation methods are shallowly embedded as pure Lean
functions over an explicit data model of the fetched AWS response data.
Optional dictionary keys become Option fields; keys that the code always
accesses with a list default become plain lists.  Python truthiness of
the accessed values is modelled by the truthy* helpers.  The one partial
operation in the generation path, the index access
instance.get('NetworkInterfaces', [{}])[0] on a present-but-empty list
(line 329 of the source), is modelled with Except.

String building follows the source line by line: each Python
lines.append(...) becomes a list element, loops that append become
recursive block builders, and the final join('\n') becomes pyJoin.
-/

/-- Error raised by the embedded Python code: IndexError from indexing an
empty list, IOError from a failed file write. -/
inductive PyErr where
  | indexError : PyErr
  | ioError : PyErr
deriving DecidableEq, Repr

/-- Models Python sep.flatten(parts) (str.flatten). -/
def pyJoin (sep : String) : List String → String
  | [] => ""
  | a :: rest => rest.foldl (fun acc s => acc ++ sep ++ s) a

/-- A run of n space characters, models ' ' * n. -/
def spaces (n : Nat) : String := String.mk (List.replicate n ' ')

/-- Python truthiness of an optional string value (absent key or empty
string are falsy). -/
def truthyS (o : Option String) : Bool := o.getD "" != ""

/-- Python truthiness of an optional integer value (absent key or 0 are
falsy). -/
def truthyN (o : Option Nat) : Bool := o.getD 0 != 0

/-- Python truthiness of an optional boolean value (absent key is falsy). -/
def truthyB (o : Option Bool) : Bool := o.getD false

/-- Models the Python expression a or b for an optional string a:
the value of a when it is present and truthy, else b. -/
def pyOrS (o : Option String) (d : String) : String :=
  let v := o.getD ""
  if v = "" then d else v

/-- Models str(b).lower() for a Python bool, as used for
delete_on_termination. -/
def pyBoolStr (b : Bool) : String := if b then "true" else "false"

/-- Models value.replace('\x22', '\\\x22') from _format_tags: every double
quote is expanded to backslash-quote.  (For a one-character pattern,
str.replace is exactly this per-character expansion.) -/
def escapeQuotes (v : String) : String :=
  String.mk (v.data.foldr (fun c acc => if c = '"' then '\\' :: '"' :: acc else c :: acc) [])

/-- Models the JSON escaping json.dumps applies to the plain identifier
strings that reach it here (backslash and quote; the identifiers contain
no control characters). -/
def jsonEscape (v : String) : String :=
  String.mk (v.data.foldr
    (fun c acc =>
      if c = '\\' then '\\' :: '\\' :: acc
      else if c = '"' then '\\' :: '"' :: acc
      else c :: acc) [])

/-- Models json.dumps applied to a list of strings, as used for security
group id collections: bracketed, comma-space separated, double-quoted. -/
def pyJsonDumps (l : List String) : String :=
  "[" ++ pyJoin ", " (l.map (fun s => "\"" ++ jsonEscape s ++ "\"")) ++ "]"

/-- Models str.split(sep) for a one-character separator sep, as used for
the ARN split on '/' and the user-data split on newline. -/
def pySplitChar (sep : Char) (s : String) : List String :=
  (s.data.foldr
    (fun c acc =>
      if c = sep then [] :: acc
      else match acc with
        | g :: gs => (c :: g) :: gs
        | [] => [[c]])
    [[]]).map String.mk

/-- One tag dictionary {'Key': k, 'Value': v}; the code reads both keys
with a default of the empty string. -/
structure Tag where
  key : String
  value : String
deriving DecidableEq, Repr

/-- One security group reference; the code reads g['GroupId']. -/
structure SecurityGroup where
  groupId : String
deriving DecidableEq, Repr

/-- The 'Ebs' sub-dictionary of a block device mapping. -/
structure EbsInfo where
  volumeId : Option String
  deleteOnTermination : Option Bool
deriving DecidableEq, Repr

/-- One entry of instance['BlockDeviceMappings'].  ebs = none models an
absent (or empty, hence falsy) 'Ebs' key; virtualName models the
'VirtualName' key of instance-store devices. -/
structure BlockDeviceMapping where
  deviceName : String
  ebs : Option EbsInfo
  virtualName : Option String
deriving DecidableEq, Repr

/-- One volume description from describe_volumes (self.volumes_data). -/
structure Volume where
  volumeId : String
  volumeType : Option String
  size : Option Nat
  iops : Option Nat
  throughput : Option Nat
  encrypted : Option Bool
  kmsKeyId : Option String
  tags : List Tag
deriving DecidableEq, Repr

/-- The 'Placement' sub-dictionary of the instance. -/
structure Placement where
  availabilityZone : Option String
  tenancy : Option String
  groupName : Option String
  hostId : Option String
deriving DecidableEq, Repr

/-- The 'IamInstanceProfile' sub-dictionary (the code reads 'Arn' with a
default of the empty string). -/
structure IamInstanceProfile where
  arn : Option String
deriving DecidableEq, Repr

/-- The 'CreditSpecification' sub-dictionary. -/
structure CreditSpecification where
  cpuCredits : Option String
deriving DecidableEq, Repr

/-- The 'MetadataOptions' sub-dictionary. -/
structure MetadataOptions where
  httpEndpoint : Option String
  httpTokens : Option String
  httpPutResponseHopLimit : Option Nat
  instanceMetadataTags : Option String
deriving DecidableEq, Repr

/-- The 'EnclaveOptions' sub-dictionary. -/
structure EnclaveOptions where
  enabled : Option Bool
deriving DecidableEq, Repr

/-- The 'CapacityReservationSpecification' sub-dictionary. -/
structure CapacityReservationSpecification where
  capacityReservationPreference : Option String
deriving DecidableEq, Repr

/-- The 'HibernationOptions' sub-dictionary. -/
structure HibernationOptions where
  configured : Option Bool
deriving DecidableEq, Repr

/-- One entry of instance['NetworkInterfaces'] as used inside
_generate_instance_resource (only its 'Groups' key is read there). -/
structure InstanceNetworkInterface where
  groups : List SecurityGroup
deriving DecidableEq, Repr

/-- An instance attribute response dictionary with a 'Value' key holding a
boolean (SourceDestCheckAttribute, DisableApiTerminationAttribute). -/
structure AttrBool where
  value : Option Bool
deriving DecidableEq, Repr

/-- An instance attribute response dictionary with a 'Value' key holding a
string (UserDataAttribute). -/
structure AttrStr where
  value : Option String
deriving DecidableEq, Repr

/-- The 'Monitoring' sub-dictionary. -/
structure Monitoring where
  state : Option String
deriving DecidableEq, Repr

/-- The 'Attachment' sub-dictionary of a network interface description. -/
structure EniAttachment where
  deviceIndex : Option Nat
deriving DecidableEq, Repr

/-- One private address entry of a network interface description. -/
structure PrivateIpSpec where
  privateIpAddress : String
deriving DecidableEq, Repr

/-- One entry of self.network_interfaces_data (describe_network_interfaces
response). -/
structure NetworkInterfaceData where
  attachment : Option EniAttachment
  subnetId : Option String
  groups : List SecurityGroup
  privateIpAddresses : List PrivateIpSpec
  sourceDestCheck : Option Bool
  tagSet : List Tag
deriving DecidableEq, Repr

/-- One entry of self.elastic_ips_data (only its 'Tags' key is read by the
generator). -/
structure ElasticIp where
  tags : List Tag
deriving DecidableEq, Repr

/-- The self.instance_data dictionary after describe_instance has merged
in the three attribute responses.  networkInterfaces must stay optional
(none models an absent key) because line 329 distinguishes an absent key
(default [{}]) from a present empty list; securityGroups and the other
lists are only ever tested for truthiness and iterated, for which an
absent key and an empty list coincide. -/
structure InstanceData where
  imageId : Option String
  instanceType : Option String
  keyName : Option String
  placement : Option Placement
  subnetId : Option String
  securityGroups : List SecurityGroup
  networkInterfaces : Option (List InstanceNetworkInterface)
  privateIpAddress : Option String
  iamInstanceProfile : Option IamInstanceProfile
  sourceDestCheckAttribute : Option AttrBool
  monitoring : Option Monitoring
  ebsOptimized : Option Bool
  disableApiTerminationAttribute : Option AttrBool
  creditSpecification : Option CreditSpecification
  metadataOptions : Option MetadataOptions
  enclaveOptions : Option EnclaveOptions
  capacityReservationSpecification : Option CapacityReservationSpecification
  hibernationOptions : Option HibernationOptions
  userDataAttribute : Option AttrStr
  rootDeviceName : Option String
  blockDeviceMappings : List BlockDeviceMapping
  tags : List Tag
deriving DecidableEq, Repr

/-- The generation-relevant state of an EC2ToTerraform object after
describe_instance has returned. -/
structure Converter where
  region : String
  instanceId : String
  instanceData : InstanceData
  volumesData : List Volume
  networkInterfacesData : List NetworkInterfaceData
  elasticIpsData : List ElasticIp
deriving DecidableEq, Repr

/-- Embeds _get_tag_value (source lines 183-188): the value of the first
tag whose key matches, none when no tag matches. -/
def getTagValue : List Tag → String → Option String
  | [], _ => none
  | t :: rest, key => if t.key = key then some t.value else getTagValue rest key

/-- The per-character replacement of _sanitize_resource_name (source line
201): keep alphanumerics and underscore, replace everything else with
underscore. -/
def pySanitizeChar (c : Char) : Char :=
  if c.isAlphanum || c = '_' then c else '_'

/-- Embeds _sanitize_resource_name (source lines 190-205) over the ASCII
character model (Lean's Char predicates; sanitizeResourceNameU is the same
function parametric in the Unicode-aware tables Python uses): replace
invalid characters, prepend an underscore when the result starts with a
digit, lower-case a non-empty result, and fall back to "instance"
otherwise. -/
def sanitizeResourceName (name : String) : String :=
  let sanitized := String.mk (name.data.map pySanitizeChar)
  let sanitized2 :=
    match sanitized.data with
    | [] => sanitized
    | c :: _ => if c.isDigit then "_" ++ sanitized else sanitized
  if sanitized2 = "" then "instance"
  else String.mk (sanitized2.data.map Char.toLower)

/-- Embeds _sanitize_resource_name (source lines 190-205) parametrically in
the Unicode character data: str.isalnum, str.isdigit and str.lower are
Unicode-aware library calls whose tables live outside this repository, so
the function takes them as arguments.  str.lower rewrites each character to
its lowercase expansion, which Unicode special casing can make longer than
one character, hence List Char (the per-character model covers the
unconditional case mappings, which include every character exercised
below).  The steps mirror the source exactly: per-character replacement
(line 201), underscore before a leading digit of the pre-lowercase string
(lines 203-204), then whole-string lower-casing with the empty-input
fallback (line 205). -/
def sanitizeResourceNameU (isalnum isdigit : Char → Bool)
    (lower : Char → List Char) (name : String) : String :=
  match name.data.map (fun c => if isalnum c || c = '_' then c else '_') with
  | [] => "instance"
  | c :: cs =>
      String.mk (((if isdigit c then '_' :: c :: cs else c :: cs).map lower).flatten)

/-- Modelled from the spec: the Unicode character data at the code points
this development exercises.  U+0130 (LATIN CAPITAL LETTER I WITH DOT ABOVE)
is an uppercase letter, hence alphanumeric and not a digit; U+0307
(COMBINING DOT ABOVE) is a combining mark, neither alphanumeric nor a
digit.  At every other code point the table falls back to the ASCII
predicate, with which Python agrees on ASCII text. -/
def ucdIsAlnum (c : Char) : Bool :=
  if c = '\u0130' then true else if c = '\u0307' then false else c.isAlphanum

/-- Modelled from the spec: the Unicode digit table at the code points this
development exercises; neither U+0130 nor U+0307 is a digit, and the table
falls back to the ASCII predicate elsewhere. -/
def ucdIsDigit (c : Char) : Bool :=
  if c = '\u0130' then false else if c = '\u0307' then false else c.isDigit

/-- Modelled from the spec: the Unicode lowercase mapping at the code
points this development exercises.  Per the Unicode special-casing data,
U+0130 lowercases to "i" followed by the combining mark U+0307; every
other code point maps to its single-character ASCII-style lowercase, with
which Python agrees on ASCII text. -/
def ucdLower (c : Char) : List Char :=
  if c = '\u0130' then ['i', '\u0307'] else [c.toLower]

/-- The lines list built by _format_tags for a non-empty tag list (source
lines 221-226): header, one entry per tag in input order, closing brace. -/
def formatTagLines (tags : List Tag) (indent : Nat) : List String :=
  (spaces indent ++ "tags = \x7b") ::
    tags.map (fun t => spaces (indent + 2) ++ t.key ++ " = \"" ++ escapeQuotes t.value ++ "\"")
    ++ [spaces indent ++ "\x7d"]

/-- Embeds _format_tags (source lines 207-227). -/
def formatTags (tags : List Tag) (indent : Nat) : String :=
  if tags.isEmpty then spaces indent ++ "tags = \x7b\x7d"
  else pyJoin "\n" (formatTagLines tags indent)

/-- The instance name used for symbols and headers: the Name tag when
present and truthy, else the instance id (source lines 292, 307). -/
def instanceNameOf (conv : Converter) : String :=
  pyOrS (getTagValue conv.instanceData.tags "Name") conv.instanceId

/-- The sanitized resource symbol of the primary instance resource
(source line 308). -/
def resourceNameOf (conv : Converter) : String :=
  sanitizeResourceName (instanceNameOf conv)

/-- Evaluation of the guard of source line 329.  The left operand is the
truthiness of instance.get('SecurityGroups'); when it is falsy, Python
evaluates instance.get('NetworkInterfaces', [{}])[0].get('Groups'),
which raises IndexError when the key is present and the list empty. -/
def sgCond (inst : InstanceData) : Except PyErr Bool :=
  if !inst.securityGroups.isEmpty then .ok true
  else
    match inst.networkInterfaces with
    | none => .ok false
    | some [] => .error .indexError
    | some (ni :: _) => .ok (!ni.groups.isEmpty)

/-- The sg_ids list built on source lines 331-337: the groups of the first
entry of a truthy (non-empty) NetworkInterfaces list, else the
EC2-Classic instance-level groups when those are truthy, else empty. -/
def sgIds (inst : InstanceData) : List String :=
  match inst.networkInterfaces with
  | some (ni :: _) => ni.groups.map (fun g => g.groupId)
  | _ =>
    if !inst.securityGroups.isEmpty then inst.securityGroups.map (fun g => g.groupId)
    else []

/-- The security-group lines appended by source lines 329-340, with the
possible IndexError of the guard. -/
def sgSegment (inst : InstanceData) : Except PyErr (List String) :=
  match sgCond inst with
  | .error e => .error e
  | .ok c =>
    if c then
      (if (sgIds inst).isEmpty then .ok []
       else .ok ["  vpc_security_group_ids = " ++ pyJsonDumps (sgIds inst)])
    else .ok []

/-- The three unconditional opening lines of the resource block (source
lines 310-314). -/
def headSeg (rn : String) (inst : InstanceData) : List String :=
  ["resource \"aws_instance\" \"" ++ rn ++ "\" \x7b",
   "  ami           = \"" ++ inst.imageId.getD "" ++ "\"",
   "  instance_type = \"" ++ inst.instanceType.getD "" ++ "\""]

/-- Key pair line (source lines 317-318). -/
def keySeg (inst : InstanceData) : List String :=
  if truthyS inst.keyName then ["  key_name      = \"" ++ inst.keyName.getD "" ++ "\""]
  else []

/-- Availability zone line (source lines 321-322). -/
def azSeg (inst : InstanceData) : List String :=
  if truthyS (inst.placement.bind (fun p => p.availabilityZone)) then
    ["  availability_zone = \"" ++ (inst.placement.bind (fun p => p.availabilityZone)).getD "" ++ "\""]
  else []

/-- Subnet line (source lines 325-326). -/
def subnetSeg (inst : InstanceData) : List String :=
  if truthyS inst.subnetId then ["  subnet_id     = \"" ++ inst.subnetId.getD "" ++ "\""]
  else []

/-- Primary private address line (source lines 343-344). -/
def privateIpSeg (inst : InstanceData) : List String :=
  if truthyS inst.privateIpAddress then
    ["  private_ip    = \"" ++ inst.privateIpAddress.getD "" ++ "\""]
  else []

/-- IAM instance profile line (source lines 347-352): the profile name is
the last '/'-separated segment of the ARN. -/
def iamSeg (inst : InstanceData) : List String :=
  match inst.iamInstanceProfile with
  | none => []
  | some p =>
    let arn := p.arn.getD ""
    let name := if arn != "" then (pySplitChar '/' arn).getLastD "" else ""
    if name != "" then ["  iam_instance_profile = \"" ++ name ++ "\""] else []

/-- Source/dest check line (source lines 354-357): emitted only when the
attribute value (default True) is falsy. -/
def srcDstSeg (inst : InstanceData) : List String :=
  let v := match inst.sourceDestCheckAttribute with
    | none => true
    | some a => a.value.getD true
  if !v then ["  source_dest_check = false"] else []

/-- Detailed monitoring line (source lines 360-361). -/
def monitoringSeg (inst : InstanceData) : List String :=
  if (inst.monitoring.bind (fun m => m.state)) = some "enabled" then ["  monitoring = true"]
  else []

/-- EBS optimized line (source lines 364-365). -/
def ebsOptSeg (inst : InstanceData) : List String :=
  if truthyB inst.ebsOptimized then ["  ebs_optimized = true"] else []

/-- Disable API termination line (source lines 368-370): emitted when the
attribute value (default False) is truthy. -/
def disableTermSeg (inst : InstanceData) : List String :=
  let v := match inst.disableApiTerminationAttribute with
    | none => false
    | some a => a.value.getD false
  if v then ["  disable_api_termination = true"] else []

/-- Tenancy line (source lines 373-374): emitted when present, truthy and
not the default tenancy. -/
def tenancySeg (inst : InstanceData) : List String :=
  let t := inst.placement.bind (fun p => p.tenancy)
  if truthyS t && (t.getD "" != "default") then
    ["  tenancy = \"" ++ t.getD "" ++ "\""]
  else []

/-- Placement group line (source lines 377-378). -/
def pgroupSeg (inst : InstanceData) : List String :=
  if truthyS (inst.placement.bind (fun p => p.groupName)) then
    ["  placement_group = \"" ++ (inst.placement.bind (fun p => p.groupName)).getD "" ++ "\""]
  else []

/-- Dedicated host line (source lines 381-382). -/
def hostIdSeg (inst : InstanceData) : List String :=
  if truthyS (inst.placement.bind (fun p => p.hostId)) then
    ["  host_id = \"" ++ (inst.placement.bind (fun p => p.hostId)).getD "" ++ "\""]
  else []

/-- Credit specification block (source lines 385-390). -/
def creditSeg (inst : InstanceData) : List String :=
  match inst.creditSpecification with
  | none => []
  | some cs =>
    let cc := cs.cpuCredits.getD ""
    if cc != "" then
      ["\n  credit_specification \x7b",
       "    cpu_credits = \"" ++ cc ++ "\"",
       "  \x7d"]
    else []

/-- Metadata options block (source lines 393-406). -/
def metadataSeg (inst : InstanceData) : List String :=
  match inst.metadataOptions with
  | none => []
  | some m =>
    ["\n  metadata_options \x7b"]
    ++ (if truthyS m.httpEndpoint then
        ["    http_endpoint               = \"" ++ m.httpEndpoint.getD "" ++ "\""] else [])
    ++ (if truthyS m.httpTokens then
        ["    http_tokens                 = \"" ++ m.httpTokens.getD "" ++ "\""] else [])
    ++ (if truthyN m.httpPutResponseHopLimit then
        ["    http_put_response_hop_limit = " ++ toString (m.httpPutResponseHopLimit.getD 0)] else [])
    ++ (if truthyS m.instanceMetadataTags then
        ["    instance_metadata_tags      = \"" ++ m.instanceMetadataTags.getD "" ++ "\""] else [])
    ++ ["  \x7d"]

/-- Enclave options block (source lines 409-412). -/
def enclaveSeg (inst : InstanceData) : List String :=
  if truthyB (inst.enclaveOptions.bind (fun e => e.enabled)) then
    ["\n  enclave_options \x7b", "    enabled = true", "  \x7d"]
  else []

/-- Capacity reservation block (source lines 415-420). -/
def capResSeg (inst : InstanceData) : List String :=
  match inst.capacityReservationSpecification with
  | none => []
  | some c =>
    if truthyS c.capacityReservationPreference then
      ["\n  capacity_reservation_specification \x7b",
       "    capacity_reservation_preference = \"" ++ c.capacityReservationPreference.getD "" ++ "\"",
       "  \x7d"]
    else []

/-- Hibernation line (source lines 423-424). -/
def hibernationSeg (inst : InstanceData) : List String :=
  if truthyB (inst.hibernationOptions.bind (fun h => h.configured)) then
    ["\n  hibernation = true"]
  else []

/-- User data lines (source lines 427-443): the encoded scalar is always
emitted for a truthy payload; the decoded text is appended as comment
lines only when the decode succeeds and its length is under 500; a
decode failure (b64 returning none models the caught exception) adds
nothing.  The decoder b64 models base64.b64decode(..).decode('utf-8'). -/
def userDataSeg (b64 : String → Option String) (inst : InstanceData) : List String :=
  if ((inst.userDataAttribute.map (fun a => a.value)).bind id).getD "" != "" then
    ["\n  # User data (base64 encoded)",
     "  user_data_base64 = \""
       ++ ((inst.userDataAttribute.map (fun a => a.value)).bind id).getD "" ++ "\""]
    ++ (match b64 (((inst.userDataAttribute.map (fun a => a.value)).bind id).getD "") with
        | some dec =>
          if dec.length < 500 then
            "  # Decoded user data:" :: (pySplitChar '\n' dec).map (fun l => "  # " ++ l)
          else []
        | none => [])
  else []

/-- The six conditional volume-detail lines shared by the root block
(source lines 466-476) and the additional ebs blocks (lines 510-520). -/
def volDetailLines (vd : Volume) : List String :=
  ["    volume_type           = \"" ++ vd.volumeType.getD "gp2" ++ "\"",
   "    volume_size           = " ++ toString (vd.size.getD 8)]
  ++ (if truthyN vd.iops then
      ["    iops                  = " ++ toString (vd.iops.getD 0)] else [])
  ++ (if truthyN vd.throughput then
      ["    throughput            = " ++ toString (vd.throughput.getD 0)] else [])
  ++ (if truthyB vd.encrypted then ["    encrypted             = true"] else [])
  ++ (if truthyS vd.kmsKeyId then
      ["    kms_key_id            = \"" ++ vd.kmsKeyId.getD "" ++ "\""] else [])

/-- Lookup of a volume description by optional volume id (source lines
459-463 and 500-504): first volume whose id equals the given one; a
missing id matches nothing. -/
def findVolume (vols : List Volume) (vid : Option String) : Option Volume :=
  vols.find? (fun v => vid == some v.volumeId)

/-- The root_block_device block body for the matched root entry with a
present Ebs dictionary (source lines 454-486); the volume lookup of
lines 458-463 is the pure findVolume, evaluated where its result is
used. -/
def rootBlockOf (conv : Converter) (ebs : EbsInfo) : List String :=
  ["\n  root_block_device \x7b"]
  ++ (match findVolume conv.volumesData ebs.volumeId with
      | some v => volDetailLines v
      | none => [])
  ++ ["    delete_on_termination = " ++ pyBoolStr (ebs.deleteOnTermination.getD true)]
  ++ (match findVolume conv.volumesData ebs.volumeId with
      | some v => if !v.tags.isEmpty then ["\n" ++ formatTags v.tags 4] else []
      | none => [])
  ++ ["  \x7d"]

/-- The Ebs dictionary of the matched root entry, when a truthy one
exists (source lines 448-452). -/
def rootEbsOf (conv : Converter) : Option EbsInfo :=
  match conv.instanceData.blockDeviceMappings.find?
      (fun bd => bd.deviceName == conv.instanceData.rootDeviceName.getD "") with
  | none => none
  | some bd => bd.ebs

/-- Root block device lines (source lines 445-486): for a truthy root
device name, the first block device mapping matching it, when it carries
a truthy Ebs dictionary, is rendered as the root_block_device block. -/
def rootSeg (conv : Converter) : List String :=
  if conv.instanceData.rootDeviceName.getD "" != "" then
    match rootEbsOf conv with
    | none => []
    | some ebs => rootBlockOf conv ebs
  else []

/-- The additional (non-root) volume-backed device entries collected on
source lines 489-492, in the original list order. -/
def ebsDevices (inst : InstanceData) : List BlockDeviceMapping :=
  inst.blockDeviceMappings.filter
    (fun bd => (some bd.deviceName != inst.rootDeviceName) && bd.ebs.isSome)

/-- The ebs_block_device block of one additional device entry (the body of
the loop on source lines 494-530). -/
def ebsBlockLines (conv : Converter) (deviceName : String) (ebs : EbsInfo) : List String :=
  ["\n  ebs_block_device \x7b",
   "    device_name           = \"" ++ deviceName ++ "\""]
  ++ (match findVolume conv.volumesData ebs.volumeId with
      | some v =>
        volDetailLines v
        ++ (if !v.tags.isEmpty then ["\n" ++ formatTags v.tags 4] else [])
      | none => [])
  ++ ["    delete_on_termination = " ++ pyBoolStr (ebs.deleteOnTermination.getD true),
      "  \x7d"]

/-- The loop over the additional device entries (source lines 494-530). -/
def ebsBlocks (conv : Converter) : List BlockDeviceMapping → List String
  | [] => []
  | bd :: rest =>
    (match bd.ebs with
     | some ebs => ebsBlockLines conv bd.deviceName ebs
     | none => [])
    ++ ebsBlocks conv rest

/-- All additional-storage lines of the primary block. -/
def ebsSeg (conv : Converter) : List String :=
  ebsBlocks conv (ebsDevices conv.instanceData)

/-- The loop over instance-store entries (source lines 533-538): every
mapping with a truthy VirtualName becomes an ephemeral block. -/
def ephemeralBlocks : List BlockDeviceMapping → List String
  | [] => []
  | bd :: rest =>
    (if truthyS bd.virtualName then
      ["\n  ephemeral_block_device \x7b",
       "    device_name  = \"" ++ bd.deviceName ++ "\"",
       "    virtual_name = \"" ++ bd.virtualName.getD "" ++ "\"",
       "  \x7d"]
     else [])
    ++ ephemeralBlocks rest

/-- Ephemeral block lines of the primary block. -/
def ephemeralSeg (inst : InstanceData) : List String :=
  ephemeralBlocks inst.blockDeviceMappings

/-- Instance tag block (source lines 545-546). -/
def tagsSeg (inst : InstanceData) : List String :=
  if !inst.tags.isEmpty then ["\n" ++ formatTags inst.tags 2] else []

/-- The unconditional trailer (source lines 549-558): volume_tags advisory
comment, the fixed lifecycle placeholder block and the closing brace. -/
def trailerSeg : List String :=
  ["\n  # Set volume_tags if you want different tags for volumes",
   "  # volume_tags = \x7b\x7d",
   "\n  lifecycle \x7b",
   "    # Prevent accidental instance replacement",
   "    # ignore_changes = [ami, user_data]",
   "  \x7d",
   "\x7d"]

/-- The lines list built by _generate_instance_resource (source lines
303-560), in the exact append order of the source; the only fallible
step is the security-group guard. -/
def genInstanceLines (b64 : String → Option String) (conv : Converter) :
    Except PyErr (List String) :=
  match sgSegment conv.instanceData with
  | .error e => .error e
  | .ok sg =>
    .ok (headSeg (resourceNameOf conv) conv.instanceData
      ++ keySeg conv.instanceData ++ azSeg conv.instanceData
      ++ subnetSeg conv.instanceData ++ sg
      ++ privateIpSeg conv.instanceData ++ iamSeg conv.instanceData
      ++ srcDstSeg conv.instanceData ++ monitoringSeg conv.instanceData
      ++ ebsOptSeg conv.instanceData ++ disableTermSeg conv.instanceData
      ++ tenancySeg conv.instanceData ++ pgroupSeg conv.instanceData
      ++ hostIdSeg conv.instanceData ++ creditSeg conv.instanceData
      ++ metadataSeg conv.instanceData ++ enclaveSeg conv.instanceData
      ++ capResSeg conv.instanceData ++ hibernationSeg conv.instanceData
      ++ userDataSeg b64 conv.instanceData
      ++ rootSeg conv ++ ebsSeg conv ++ ephemeralSeg conv.instanceData
      ++ tagsSeg conv.instanceData ++ trailerSeg)

/-- Embeds _generate_instance_resource: the joined block text. -/
def generateInstanceResource (b64 : String → Option String) (conv : Converter) :
    Except PyErr String :=
  (genInstanceLines b64 conv).map (pyJoin "\n")

/-- Embeds _generate_header (source lines 290-301); now is the frozen
value of datetime.utcnow().isoformat(). -/
def generateHeader (conv : Converter) (now : String) : String :=
  "# Terraform configuration generated from EC2 instance\n# Generated: "
  ++ now ++ "Z\n# Source Instance: " ++ conv.instanceId
  ++ "\n# Instance Name: " ++ instanceNameOf conv
  ++ "\n# Region: " ++ conv.region
  ++ "\n#\n# NOTE: This is a generated configuration. Review and customize as needed."
  ++ "\n# Some values may need to be parameterized or adjusted for your use case."

/-- The loop body and enumeration of _generate_elastic_ip_resources
(source lines 584-600); i is the enumerate counter. -/
def eipBlocks (iname rn : String) : Nat → List ElasticIp → List String
  | _, [] => []
  | i, eip :: rest =>
    (let eipName := if i > 0 then rn ++ "_eip_" ++ toString i else rn ++ "_eip"
     ["# Elastic IP for " ++ iname,
      "resource \"aws_eip\" \"" ++ eipName ++ "\" \x7b",
      "  domain = \"vpc\""]
     ++ (if !eip.tags.isEmpty then ["\n" ++ formatTags eip.tags 2] else [])
     ++ ["\x7d",
         "",
         "resource \"aws_eip_association\" \"" ++ eipName ++ "_assoc\" \x7b",
         "  instance_id   = aws_instance." ++ rn ++ ".id",
         "  allocation_id = aws_eip." ++ eipName ++ ".id",
         "\x7d"])
    ++ eipBlocks iname rn (i + 1) rest

/-- Embeds _generate_elastic_ip_resources (source lines 573-602). -/
def generateElasticIpResources (conv : Converter) : String :=
  if conv.elasticIpsData.isEmpty then ""
  else
    let lines := eipBlocks (instanceNameOf conv) (resourceNameOf conv) 0 conv.elasticIpsData
    if lines.isEmpty then "" else pyJoin "\n" lines

/-- The sort key of source line 620:
x.get('Attachment', {}).get('DeviceIndex', 999). -/
def eniSortKey (x : NetworkInterfaceData) : Nat :=
  (x.attachment.bind (fun a => a.deviceIndex)).getD 999

/-- The interface list sorted by attachment device index (source lines
618-621).  Python sorted is a stable sort by this key; a stable sort by
key is unique, so insertionSort with the key order embeds it exactly. -/
def sortedEnis (conv : Converter) : List NetworkInterfaceData :=
  List.insertionSort (fun a b => eniSortKey a ≤ eniSortKey b) conv.networkInterfacesData

/-- The interfaces emitted as satellites: all but the first of the sorted
list (source line 623). -/
def satelliteEnis (conv : Converter) : List NetworkInterfaceData :=
  (sortedEnis conv).drop 1

/-- The block of one satellite interface (loop body, source lines
623-657): a standalone aws_network_interface resource followed by its
attachment block. -/
def eniBlockLines (rn : String) (eni : NetworkInterfaceData) : List String :=
  ["# Additional Network Interface (device index "
     ++ toString ((eni.attachment.bind (fun a => a.deviceIndex)).getD 0) ++ ")",
   "resource \"aws_network_interface\" \""
     ++ (rn ++ "_eni_" ++ toString ((eni.attachment.bind (fun a => a.deviceIndex)).getD 0))
     ++ "\" \x7b",
   "  subnet_id       = \"" ++ eni.subnetId.getD "" ++ "\""]
  ++ (if !eni.groups.isEmpty then
      ["  security_groups = " ++ pyJsonDumps (eni.groups.map (fun g => g.groupId))] else [])
  ++ (if !eni.privateIpAddresses.isEmpty then
      (if !(eni.privateIpAddresses.map (fun ip => ip.privateIpAddress)).isEmpty then
        ["  private_ips     = "
          ++ pyJsonDumps (eni.privateIpAddresses.map (fun ip => ip.privateIpAddress))]
       else [])
      else [])
  ++ (if !(eni.sourceDestCheck.getD true) then ["  source_dest_check = false"] else [])
  ++ (if !eni.tagSet.isEmpty then ["\n" ++ formatTags eni.tagSet 2] else [])
  ++ ["\x7d",
      "",
      "resource \"aws_network_interface_attachment\" \""
        ++ (rn ++ "_eni_" ++ toString ((eni.attachment.bind (fun a => a.deviceIndex)).getD 0))
        ++ "_attach\" \x7b",
      "  instance_id          = aws_instance." ++ rn ++ ".id",
      "  network_interface_id = aws_network_interface."
        ++ (rn ++ "_eni_" ++ toString ((eni.attachment.bind (fun a => a.deviceIndex)).getD 0))
        ++ ".id",
      "  device_index         = "
        ++ toString ((eni.attachment.bind (fun a => a.deviceIndex)).getD 0),
      "\x7d",
      ""]

/-- The loop over the satellite interfaces (source lines 623-657). -/
def eniBlocks (rn : String) : List NetworkInterfaceData → List String
  | [] => []
  | e :: rest => eniBlockLines rn e ++ eniBlocks rn rest

/-- Embeds _generate_network_interfaces (source lines 604-659). -/
def generateNetworkInterfaces (conv : Converter) : String :=
  if conv.networkInterfacesData.length ≤ 1 then ""
  else
    if (eniBlocks (resourceNameOf conv) (satelliteEnis conv)).isEmpty then ""
    else pyJoin "\n" (eniBlocks (resourceNameOf conv) (satelliteEnis conv))

/-- The fixed closing recommendations comment returned by
_generate_variables_recommendation (source lines 661-675). -/
def variablesRecommendation : String :=
  "# Recommendations:\n# 1. Consider parameterizing values like AMI ID, instance type, etc. using variables\n# 2. Use data sources to look up existing resources (VPCs, subnets, security groups)\n# 3. Review all settings and adjust for your specific requirements\n# 4. Test this configuration in a non-production environment first\n# 5. Consider using remote state and proper state management\n#\n# Example variables you might want to create:\n# - var.instance_type\n# - var.ami_id\n# - var.key_name\n# - var.subnet_id\n# - var.security_group_ids"

/-- Embeds the section assembly of generate_terraform (source lines
243-276, without the file write): header, primary block, the always-empty
volume sections (skipped by their truthiness checks), elastic IP blocks,
satellite interface blocks and the recommendations, joined by blank
lines. -/
def generateTerraform (b64 : String → Option String) (conv : Converter) (now : String) :
    Except PyErr String :=
  match genInstanceLines b64 conv with
  | .error e => .error e
  | .ok instLines =>
    let sections := [generateHeader conv now, pyJoin "\n" instLines]
    let sections := sections ++
      (let e := generateElasticIpResources conv
       if e != "" then [e] else [])
    let sections := sections ++
      (let n := generateNetworkInterfaces conv
       if n != "" then [n] else [])
    let sections := sections ++ [variablesRecommendation]
    .ok (pyJoin "\n\n" sections)

/-- Models the file write of generate_terraform (source lines 279-286):
with open(output_file, 'w') opens the destination with truncation, then
a single write either completes or raises IOError after writing a prefix
of failAt characters.  prior is the previous contents of the destination
(none when it did not exist); the result is the new contents and whether
the write succeeded. -/
def writeOutput (prior : Option String) (content : String) (failAt : Option Nat) :
    Option String × Bool :=
  match failAt, prior with
  | none, _ => (some content, true)
  | some n, _ => (some (String.mk (content.data.take n)), false)

/-- Embeds generate_terraform with an output file (source lines 229-288):
generation followed by the scoped write; a write failure is reported and
the invocation exits fatally (sys.exit(1), modelled as ioError), with no
retry because the write is attempted exactly once. -/
def generateTerraformToFile (b64 : String → Option String) (conv : Converter)
    (now : String) (prior : Option String) (failAt : Option Nat) :
    Option String × Except PyErr String :=
  match generateTerraform b64 conv now with
  | .error e => (prior, .error e)
  | .ok text =>
    match writeOutput prior text failAt with
    | (d, true) => (d, .ok text)
    | (d, false) => (d, .error .ioError)

/-- The opening line element of the root storage block. -/
def rootOpenerStr : String := "\n  root_block_device \x7b"

/-- The opening line element of an additional storage block. -/
def ebsOpenerStr : String := "\n  ebs_block_device \x7b"

/-- The literal part of the device_name line of an additional storage
block. -/
def devLineLit : String := "    device_name           = \""

/-- The comment line that announces the decoded user data. -/
def udHeaderStr : String := "  # Decoded user data:"

/-- Recognizes the device_name line of an additional storage block by its
literal part. -/
def devLinePred (s : String) : Bool :=
  decide (s.data.take devLineLit.data.length = devLineLit.data)

/-- A line element that can be confused with none of: the root storage
opener, the additional storage opener, an additional storage device_name
line, the decoded-user-data header. -/
def CleanLine (s : String) : Prop :=
  s ≠ rootOpenerStr ∧ s ≠ ebsOpenerStr ∧ devLinePred s = false ∧ s ≠ udHeaderStr

/-- The condition under which the security-group guard of source line 329
does not raise: the NetworkInterfaces key is not a present-but-empty
list, or the instance-level group list makes the guard short-circuit. -/
def SgOk (inst : InstanceData) : Prop :=
  inst.networkInterfaces ≠ some [] ∨ inst.securityGroups ≠ []

/-- A description in which no optional field is set beyond the mandatory
image reference and type class. -/
def MinimalInstance (inst : InstanceData) : Prop :=
  inst.keyName = none ∧ inst.placement = none ∧ inst.subnetId = none ∧
  inst.securityGroups = [] ∧ inst.networkInterfaces = none ∧
  inst.privateIpAddress = none ∧ inst.iamInstanceProfile = none ∧
  inst.sourceDestCheckAttribute = none ∧ inst.monitoring = none ∧
  inst.ebsOptimized = none ∧ inst.disableApiTerminationAttribute = none ∧
  inst.creditSpecification = none ∧ inst.metadataOptions = none ∧
  inst.enclaveOptions = none ∧ inst.capacityReservationSpecification = none ∧
  inst.hibernationOptions = none ∧ inst.userDataAttribute = none ∧
  inst.rootDeviceName = none ∧ inst.blockDeviceMappings = [] ∧ inst.tags = []

/-- A line element that opens a nested block of the primary resource:
it starts a fresh block at two-space indent (leading blank line) and
ends with an opening brace. -/
def IsNestedBlockOpener (s : String) : Prop :=
  s.data.take 3 = ['\n', ' ', ' '] ∧ s.data.getLast? = some '\x7b'

/-- The literal part of a standalone satellite interface resource line. -/
def eniResLit : String := "resource \"aws_network_interface\" \""

/-- The literal part of a satellite interface attachment resource line. -/
def eniAttachLit : String := "resource \"aws_network_interface_attachment\" \""

/-- Recognizes a standalone satellite interface resource line. -/
def eniResPred (s : String) : Bool :=
  decide (s.data.take eniResLit.data.length = eniResLit.data)

/-- Recognizes a satellite interface attachment resource line. -/
def eniAttachPred (s : String) : Bool :=
  decide (s.data.take eniAttachLit.data.length = eniAttachLit.data)

/-- Modelled from the spec (section 4.1) for comparison with the source
sanitizer: every character that is not alphanumeric or underscore is
replaced with underscore; if the resulting string's first character is a
digit an underscore is prepended; the result is lower-cased; empty input
(the only input that leaves the replacement empty) yields the fixed
fallback symbol. -/
def sanitizeSpec (s : String) : String :=
  match s.data.map pySanitizeChar with
  | [] => "instance"
  | c :: cs => String.mk ((if c.isDigit then '_' :: c :: cs else c :: cs).map Char.toLower)

/-- A minimal concrete description: mandatory image and type only. -/
def instMin : InstanceData :=
  { imageId := some "ami-12345678"
    instanceType := some "t3.micro"
    keyName := none
    placement := none
    subnetId := none
    securityGroups := []
    networkInterfaces := none
    privateIpAddress := none
    iamInstanceProfile := none
    sourceDestCheckAttribute := none
    monitoring := none
    ebsOptimized := none
    disableApiTerminationAttribute := none
    creditSpecification := none
    metadataOptions := none
    enclaveOptions := none
    capacityReservationSpecification := none
    hibernationOptions := none
    userDataAttribute := none
    rootDeviceName := none
    blockDeviceMappings := []
    tags := [] }

/-- A concrete converter around the minimal description. -/
def convMin : Converter :=
  { region := "us-east-1"
    instanceId := "i-0abc"
    instanceData := instMin
    volumesData := []
    networkInterfacesData := []
    elasticIpsData := [] }

/-- A concrete converter with a root device and one additional volume. -/
def convStorage : Converter :=
  { convMin with
    instanceData :=
      { instMin with
        rootDeviceName := some "/dev/sda1"
        blockDeviceMappings :=
          [{ deviceName := "/dev/sda1"
             ebs := some { volumeId := some "vol-1", deleteOnTermination := some true }
             virtualName := none },
           { deviceName := "/dev/sdb"
             ebs := some { volumeId := some "vol-2", deleteOnTermination := some false }
             virtualName := none }] }
    volumesData :=
      [{ volumeId := "vol-1", volumeType := some "gp3", size := some 20, iops := none
         throughput := none, encrypted := none, kmsKeyId := none, tags := [] },
       { volumeId := "vol-2", volumeType := some "gp2", size := some 100, iops := none
         throughput := none, encrypted := some true, kmsKeyId := none, tags := [] }] }

/-- A concrete converter with three attached network interfaces of device
indices 0, 1 and 2. -/
def convEni : Converter :=
  { convMin with
    networkInterfacesData :=
      [{ attachment := some { deviceIndex := some 1 }, subnetId := some "subnet-b"
         groups := [], privateIpAddresses := [], sourceDestCheck := none, tagSet := [] },
       { attachment := some { deviceIndex := some 0 }, subnetId := some "subnet-a"
         groups := [], privateIpAddresses := [], sourceDestCheck := none, tagSet := [] },
       { attachment := some { deviceIndex := some 2 }, subnetId := some "subnet-c"
         groups := [], privateIpAddresses := [], sourceDestCheck := none, tagSet := [] }] }

/-- A concrete converter with a user-data payload. -/
def convUd : Converter :=
  { convMin with
    instanceData := { instMin with userDataAttribute := some { value := some "SGVsbG8K" } } }

/-- A concrete converter whose NetworkInterfaces key is present but empty
while no instance-level security groups exist. -/
def convEmptyNi : Converter :=
  { convMin with instanceData := { instMin with networkInterfaces := some [] } }

/-! Infrastructure lemmas about the string building blocks. -/

theorem take_data_append (a b : String) (m : Nat) (hm : m ≤ a.data.length) :
    (a ++ b).data.take m = a.data.take m := by
  rw [String.data_append, List.take_append_of_le_length hm]

theorem ne_lit (a b t : String) (m : Nat) (hm : m ≤ a.data.length)
    (h : a.data.take m ≠ t.data.take m) : a ++ b ≠ t := by
  intro e
  apply h
  rw [← take_data_append a b m hm, e]

theorem take_pred_false (lit a b : String) (m : Nat) (hm : m ≤ a.data.length)
    (hmd : m ≤ lit.data.length) (h : a.data.take m ≠ lit.data.take m) :
    decide ((a ++ b).data.take lit.data.length = lit.data) = false := by
  rw [decide_eq_false_iff_not]
  intro e
  apply h
  calc a.data.take m = (a ++ b).data.take m := (take_data_append a b m hm).symm
    _ = ((a ++ b).data.take lit.data.length).take m := by
        rw [List.take_take, Nat.min_eq_left hmd]
    _ = lit.data.take m := by rw [e]

theorem take_pred_true (lit b : String) :
    decide ((lit ++ b).data.take lit.data.length = lit.data) = true := by
  rw [decide_eq_true_iff]
  rw [String.data_append, List.take_append_of_le_length (Nat.le_refl _), List.take_length]

theorem cleanLine_of (s : String) (h1 : s ≠ rootOpenerStr) (h2 : s ≠ ebsOpenerStr)
    (h3 : devLinePred s = false) (h4 : s ≠ udHeaderStr) : CleanLine s :=
  ⟨h1, h2, h3, h4⟩

theorem udMaybeLineM (a b : String) (m : Nat) (hm : m ≤ a.data.length)
    (hmd : m ≤ devLineLit.data.length)
    (h1 : a.data.take m ≠ rootOpenerStr.data.take m)
    (h2 : a.data.take m ≠ ebsOpenerStr.data.take m)
    (h3 : a.data.take m ≠ devLineLit.data.take m) :
    (a ++ b) ≠ rootOpenerStr ∧ (a ++ b) ≠ ebsOpenerStr ∧ devLinePred (a ++ b) = false :=
  ⟨ne_lit a b _ m hm h1, ne_lit a b _ m hm h2,
   take_pred_false devLineLit a b m hm hmd h3⟩

theorem cleanLineM (a b : String) (m : Nat) (hm : m ≤ a.data.length)
    (hmd : m ≤ devLineLit.data.length)
    (h1 : a.data.take m ≠ rootOpenerStr.data.take m)
    (h2 : a.data.take m ≠ ebsOpenerStr.data.take m)
    (h3 : a.data.take m ≠ devLineLit.data.take m)
    (h4 : a.data.take m ≠ udHeaderStr.data.take m) : CleanLine (a ++ b) :=
  let u := udMaybeLineM a b m hm hmd h1 h2 h3
  ⟨u.1, u.2.1, u.2.2, ne_lit a b _ m hm h4⟩

theorem cleanLineM3 (lit v q : String) (m : Nat) (hm : m ≤ lit.data.length)
    (hmd : m ≤ devLineLit.data.length)
    (h1 : lit.data.take m ≠ rootOpenerStr.data.take m)
    (h2 : lit.data.take m ≠ ebsOpenerStr.data.take m)
    (h3 : lit.data.take m ≠ devLineLit.data.take m)
    (h4 : lit.data.take m ≠ udHeaderStr.data.take m) : CleanLine (lit ++ v ++ q) := by
  rw [String.append_assoc]
  exact cleanLineM lit (v ++ q) m hm hmd h1 h2 h3 h4

theorem pyJoin_foldl_ex (l : List String) (a : String) :
    ∃ r, l.foldl (fun acc s => acc ++ "\n" ++ s) a = a ++ r := by
  induction l generalizing a with
  | nil => exact ⟨"", (String.append_empty a).symm⟩
  | cons x xs ih =>
    obtain ⟨r, hr⟩ := ih (a ++ "\n" ++ x)
    exact ⟨"\n" ++ x ++ r, by
      rw [List.foldl_cons, hr, String.append_assoc a "\n" x,
        String.append_assoc a ("\n" ++ x) r]⟩

theorem formatTags_pre (t : List Tag) (i : Nat) :
    ∃ r, formatTags t i = (spaces i ++ "tags = \x7b") ++ r := by
  unfold formatTags
  cases t with
  | nil =>
    refine ⟨"\x7d", ?_⟩
    simp only [List.isEmpty_nil, if_true]
    rw [String.append_assoc]
    congr 1
  | cons x xs =>
    simp only [List.isEmpty_cons, if_false]
    unfold formatTagLines pyJoin
    exact pyJoin_foldl_ex _ _

theorem tags_elem_pre2 (t : List Tag) :
    ∃ r, "\n" ++ formatTags t 2 = "\n  tags = \x7b" ++ r := by
  obtain ⟨r, hr⟩ := formatTags_pre t 2
  refine ⟨r, ?_⟩
  rw [hr, ← String.append_assoc]
  congr 1

theorem tags_elem_pre4 (t : List Tag) :
    ∃ r, "\n" ++ formatTags t 4 = "\n    tags = \x7b" ++ r := by
  obtain ⟨r, hr⟩ := formatTags_pre t 4
  refine ⟨r, ?_⟩
  rw [hr, ← String.append_assoc]
  congr 1

theorem count_zero_root {l : List String} (h : ∀ s ∈ l, CleanLine s) :
    l.count rootOpenerStr = 0 :=
  List.count_eq_zero.mpr (fun hm => (h _ hm).1 rfl)

theorem count_zero_ebs {l : List String} (h : ∀ s ∈ l, CleanLine s) :
    l.count ebsOpenerStr = 0 :=
  List.count_eq_zero.mpr (fun hm => (h _ hm).2.1 rfl)

theorem filter_dev_nil {l : List String} (h : ∀ s ∈ l, CleanLine s) :
    l.filter devLinePred = [] :=
  List.filter_eq_nil_iff.mpr (fun s hs => by
    have := (h s hs).2.2.1
    simp [this])

theorem not_mem_ud {l : List String} (h : ∀ s ∈ l, CleanLine s) :
    udHeaderStr ∉ l :=
  fun hm => (h _ hm).2.2.2 rfl

theorem mem_of_ite_nil {α : Type} {c : Prop} [Decidable c] {l : List α} {s : α}
    (h : s ∈ (if c then l else [])) : s ∈ l := by
  by_cases hc : c
  · rwa [if_pos hc] at h
  · rw [if_neg hc] at h
    exact absurd h (List.not_mem_nil s)

theorem headSeg_clean (rn : String) (inst : InstanceData) :
    ∀ s ∈ headSeg rn inst, CleanLine s := by
  intro s hs
  unfold headSeg at hs
  simp only [List.mem_cons, List.mem_singleton, List.not_mem_nil, or_false] at hs
  rcases hs with h | h | h
  · exact h ▸ cleanLineM3 "resource \"aws_instance\" \"" _ "\" \x7b" 7
      (by decide) (by decide) (by decide) (by decide) (by decide) (by decide)
  · exact h ▸ cleanLineM3 "  ami           = \"" _ "\"" 7
      (by decide) (by decide) (by decide) (by decide) (by decide) (by decide)
  · exact h ▸ cleanLineM3 "  instance_type = \"" _ "\"" 7
      (by decide) (by decide) (by decide) (by decide) (by decide) (by decide)

theorem keySeg_clean (inst : InstanceData) : ∀ s ∈ keySeg inst, CleanLine s := by
  intro s hs
  unfold keySeg at hs
  have hs := mem_of_ite_nil hs
  simp only [List.mem_singleton] at hs
  exact hs ▸ cleanLineM3 "  key_name      = \"" _ "\"" 7
    (by decide) (by decide) (by decide) (by decide) (by decide) (by decide)

theorem azSeg_clean (inst : InstanceData) : ∀ s ∈ azSeg inst, CleanLine s := by
  intro s hs
  unfold azSeg at hs
  have hs := mem_of_ite_nil hs
  simp only [List.mem_singleton] at hs
  exact hs ▸ cleanLineM3 "  availability_zone = \"" _ "\"" 7
    (by decide) (by decide) (by decide) (by decide) (by decide) (by decide)

theorem subnetSeg_clean (inst : InstanceData) : ∀ s ∈ subnetSeg inst, CleanLine s := by
  intro s hs
  unfold subnetSeg at hs
  have hs := mem_of_ite_nil hs
  simp only [List.mem_singleton] at hs
  exact hs ▸ cleanLineM3 "  subnet_id     = \"" _ "\"" 7
    (by decide) (by decide) (by decide) (by decide) (by decide) (by decide)

theorem privateIpSeg_clean (inst : InstanceData) : ∀ s ∈ privateIpSeg inst, CleanLine s := by
  intro s hs
  unfold privateIpSeg at hs
  have hs := mem_of_ite_nil hs
  simp only [List.mem_singleton] at hs
  exact hs ▸ cleanLineM3 "  private_ip    = \"" _ "\"" 7
    (by decide) (by decide) (by decide) (by decide) (by decide) (by decide)

theorem sgSegment_ok_clean {inst : InstanceData} {sg : List String}
    (h : sgSegment inst = .ok sg) : ∀ s ∈ sg, CleanLine s := by
  intro s hs
  unfold sgSegment at h
  cases hc : sgCond inst with
  | error e =>
    rw [hc] at h
    exact Except.noConfusion h
  | ok c =>
    rw [hc] at h
    have h2 : (if c = true then
        (if (sgIds inst).isEmpty = true then (Except.ok [] : Except PyErr (List String))
         else Except.ok ["  vpc_security_group_ids = " ++ pyJsonDumps (sgIds inst)])
        else Except.ok []) = Except.ok sg := h
    by_cases hcc : c = true
    · rw [if_pos hcc] at h2
      by_cases he : (sgIds inst).isEmpty = true
      · rw [if_pos he] at h2
        cases h2
        exact absurd hs (List.not_mem_nil s)
      · rw [if_neg he] at h2
        cases h2
        simp only [List.mem_singleton] at hs
        exact hs ▸ cleanLineM "  vpc_security_group_ids = " _ 7
          (by decide) (by decide) (by decide) (by decide) (by decide) (by decide)
    · rw [if_neg hcc] at h2
      cases h2
      exact absurd hs (List.not_mem_nil s)

theorem iamSeg_clean (inst : InstanceData) : ∀ s ∈ iamSeg inst, CleanLine s := by
  intro s
  unfold iamSeg
  cases inst.iamInstanceProfile with
  | none => intro hs; exact absurd hs (List.not_mem_nil s)
  | some p =>
    intro hs
    have hs := mem_of_ite_nil hs
    simp only [List.mem_singleton] at hs
    exact hs ▸ cleanLineM3 "  iam_instance_profile = \"" _ "\"" 7
      (by decide) (by decide) (by decide) (by decide) (by decide) (by decide)

theorem srcDstSeg_clean (inst : InstanceData) : ∀ s ∈ srcDstSeg inst, CleanLine s := by
  intro s hs
  unfold srcDstSeg at hs
  have hs := mem_of_ite_nil hs
  simp only [List.mem_singleton] at hs
  exact hs ▸ cleanLine_of _ (by decide) (by decide) (by decide) (by decide)

theorem monitoringSeg_clean (inst : InstanceData) : ∀ s ∈ monitoringSeg inst, CleanLine s := by
  intro s hs
  unfold monitoringSeg at hs
  have hs := mem_of_ite_nil hs
  simp only [List.mem_singleton] at hs
  exact hs ▸ cleanLine_of _ (by decide) (by decide) (by decide) (by decide)

theorem ebsOptSeg_clean (inst : InstanceData) : ∀ s ∈ ebsOptSeg inst, CleanLine s := by
  intro s hs
  unfold ebsOptSeg at hs
  have hs := mem_of_ite_nil hs
  simp only [List.mem_singleton] at hs
  exact hs ▸ cleanLine_of _ (by decide) (by decide) (by decide) (by decide)

theorem disableTermSeg_clean (inst : InstanceData) : ∀ s ∈ disableTermSeg inst, CleanLine s := by
  intro s hs
  unfold disableTermSeg at hs
  have hs := mem_of_ite_nil hs
  simp only [List.mem_singleton] at hs
  exact hs ▸ cleanLine_of _ (by decide) (by decide) (by decide) (by decide)

theorem tenancySeg_clean (inst : InstanceData) : ∀ s ∈ tenancySeg inst, CleanLine s := by
  intro s hs
  unfold tenancySeg at hs
  have hs := mem_of_ite_nil hs
  simp only [List.mem_singleton] at hs
  exact hs ▸ cleanLineM3 "  tenancy = \"" _ "\"" 7
    (by decide) (by decide) (by decide) (by decide) (by decide) (by decide)

theorem pgroupSeg_clean (inst : InstanceData) : ∀ s ∈ pgroupSeg inst, CleanLine s := by
  intro s hs
  unfold pgroupSeg at hs
  have hs := mem_of_ite_nil hs
  simp only [List.mem_singleton] at hs
  exact hs ▸ cleanLineM3 "  placement_group = \"" _ "\"" 7
    (by decide) (by decide) (by decide) (by decide) (by decide) (by decide)

theorem hostIdSeg_clean (inst : InstanceData) : ∀ s ∈ hostIdSeg inst, CleanLine s := by
  intro s hs
  unfold hostIdSeg at hs
  have hs := mem_of_ite_nil hs
  simp only [List.mem_singleton] at hs
  exact hs ▸ cleanLineM3 "  host_id = \"" _ "\"" 7
    (by decide) (by decide) (by decide) (by decide) (by decide) (by decide)

theorem creditSeg_clean (inst : InstanceData) : ∀ s ∈ creditSeg inst, CleanLine s := by
  intro s
  unfold creditSeg
  cases inst.creditSpecification with
  | none => intro hs; exact absurd hs (List.not_mem_nil s)
  | some cs =>
    intro hs
    have hs := mem_of_ite_nil hs
    simp only [List.mem_cons, List.mem_singleton, List.not_mem_nil, or_false] at hs
    rcases hs with h | h | h
    · exact h ▸ cleanLine_of _ (by decide) (by decide) (by decide) (by decide)
    · exact h ▸ cleanLineM3 "    cpu_credits = \"" _ "\"" 7
        (by decide) (by decide) (by decide) (by decide) (by decide) (by decide)
    · exact h ▸ cleanLine_of _ (by decide) (by decide) (by decide) (by decide)

theorem metadataSeg_clean (inst : InstanceData) : ∀ s ∈ metadataSeg inst, CleanLine s := by
  intro s
  unfold metadataSeg
  cases inst.metadataOptions with
  | none => intro hs; exact absurd hs (List.not_mem_nil s)
  | some m =>
    intro hs
    simp only [List.mem_append, List.mem_cons, List.mem_singleton, List.not_mem_nil,
      or_false] at hs
    rcases hs with ((((h | h) | h) | h) | h) | h
    · exact h ▸ cleanLine_of _ (by decide) (by decide) (by decide) (by decide)
    · have h := mem_of_ite_nil h
      simp only [List.mem_singleton] at h
      exact h ▸ cleanLineM3 "    http_endpoint               = \"" _ "\"" 7
        (by decide) (by decide) (by decide) (by decide) (by decide) (by decide)
    · have h := mem_of_ite_nil h
      simp only [List.mem_singleton] at h
      exact h ▸ cleanLineM3 "    http_tokens                 = \"" _ "\"" 7
        (by decide) (by decide) (by decide) (by decide) (by decide) (by decide)
    · have h := mem_of_ite_nil h
      simp only [List.mem_singleton] at h
      exact h ▸ cleanLineM "    http_put_response_hop_limit = " _ 7
        (by decide) (by decide) (by decide) (by decide) (by decide) (by decide)
    · have h := mem_of_ite_nil h
      simp only [List.mem_singleton] at h
      exact h ▸ cleanLineM3 "    instance_metadata_tags      = \"" _ "\"" 7
        (by decide) (by decide) (by decide) (by decide) (by decide) (by decide)
    · exact h ▸ cleanLine_of _ (by decide) (by decide) (by decide) (by decide)

theorem enclaveSeg_clean (inst : InstanceData) : ∀ s ∈ enclaveSeg inst, CleanLine s := by
  intro s hs
  unfold enclaveSeg at hs
  have hs := mem_of_ite_nil hs
  simp only [List.mem_cons, List.mem_singleton, List.not_mem_nil, or_false] at hs
  rcases hs with h | h | h
  · exact h ▸ cleanLine_of _ (by decide) (by decide) (by decide) (by decide)
  · exact h ▸ cleanLine_of _ (by decide) (by decide) (by decide) (by decide)
  · exact h ▸ cleanLine_of _ (by decide) (by decide) (by decide) (by decide)

theorem capResSeg_clean (inst : InstanceData) : ∀ s ∈ capResSeg inst, CleanLine s := by
  intro s
  unfold capResSeg
  cases inst.capacityReservationSpecification with
  | none => intro hs; exact absurd hs (List.not_mem_nil s)
  | some c =>
    intro hs
    have hs := mem_of_ite_nil hs
    simp only [List.mem_cons, List.mem_singleton, List.not_mem_nil, or_false] at hs
    rcases hs with h | h | h
    · exact h ▸ cleanLine_of _ (by decide) (by decide) (by decide) (by decide)
    · exact h ▸ cleanLineM3 "    capacity_reservation_preference = \"" _ "\"" 7
        (by decide) (by decide) (by decide) (by decide) (by decide) (by decide)
    · exact h ▸ cleanLine_of _ (by decide) (by decide) (by decide) (by decide)

theorem hibernationSeg_clean (inst : InstanceData) : ∀ s ∈ hibernationSeg inst, CleanLine s := by
  intro s hs
  unfold hibernationSeg at hs
  have hs := mem_of_ite_nil hs
  simp only [List.mem_singleton] at hs
  exact hs ▸ cleanLine_of _ (by decide) (by decide) (by decide) (by decide)

theorem tagsSeg_clean (inst : InstanceData) : ∀ s ∈ tagsSeg inst, CleanLine s := by
  intro s hs
  unfold tagsSeg at hs
  have hs := mem_of_ite_nil hs
  simp only [List.mem_singleton] at hs
  obtain ⟨r, hr⟩ := tags_elem_pre2 inst.tags
  rw [hs, hr]
  exact cleanLineM "\n  tags = \x7b" r 7
    (by decide) (by decide) (by decide) (by decide) (by decide) (by decide)

theorem trailerSeg_clean : ∀ s ∈ trailerSeg, CleanLine s := by
  intro s hs
  unfold trailerSeg at hs
  simp only [List.mem_cons, List.mem_singleton, List.not_mem_nil, or_false] at hs
  rcases hs with h | h | h | h | h | h | h <;>
    exact h ▸ cleanLine_of _ (by decide) (by decide) (by decide) (by decide)

theorem udMaybeLineM3 (lit v q : String) (m : Nat) (hm : m ≤ lit.data.length)
    (hmd : m ≤ devLineLit.data.length)
    (h1 : lit.data.take m ≠ rootOpenerStr.data.take m)
    (h2 : lit.data.take m ≠ ebsOpenerStr.data.take m)
    (h3 : lit.data.take m ≠ devLineLit.data.take m) :
    (lit ++ v ++ q) ≠ rootOpenerStr ∧ (lit ++ v ++ q) ≠ ebsOpenerStr ∧
      devLinePred (lit ++ v ++ q) = false := by
  rw [String.append_assoc]
  exact udMaybeLineM lit (v ++ q) m hm hmd h1 h2 h3

theorem ne_lit3 (lit v q t : String) (m : Nat) (hm : m ≤ lit.data.length)
    (h : lit.data.take m ≠ t.data.take m) : lit ++ v ++ q ≠ t := by
  rw [String.append_assoc]
  exact ne_lit lit (v ++ q) t m hm h

theorem userDataSeg_clean3 (b64 : String → Option String) (inst : InstanceData) :
    ∀ s ∈ userDataSeg b64 inst,
      s ≠ rootOpenerStr ∧ s ≠ ebsOpenerStr ∧ devLinePred s = false := by
  intro s hs
  unfold userDataSeg at hs
  have hs := mem_of_ite_nil hs
  rw [List.mem_append] at hs
  rcases hs with hs | hs
  · simp only [List.mem_cons, List.mem_singleton, List.not_mem_nil, or_false] at hs
    rcases hs with h | h
    · exact h ▸ ⟨by decide, by decide, by decide⟩
    · exact h ▸ udMaybeLineM3 "  user_data_base64 = \"" _ "\"" 7
        (by decide) (by decide) (by decide) (by decide) (by decide)
  · cases hb : b64 ((inst.userDataAttribute.map (fun a => a.value)).bind id |>.getD "") with
    | none =>
      rw [hb] at hs
      exact absurd hs (List.not_mem_nil s)
    | some dec =>
      rw [hb] at hs
      have hs2 : s ∈ (if dec.length < 500 then
          "  # Decoded user data:" :: (pySplitChar '\n' dec).map (fun l => "  # " ++ l)
          else []) := hs
      have hs3 := mem_of_ite_nil hs2
      simp only [List.mem_cons] at hs3
      rcases hs3 with h | h
      · exact h ▸ ⟨by decide, by decide, by decide⟩
      · rw [List.mem_map] at h
        obtain ⟨l, _, hl⟩ := h
        exact hl ▸ udMaybeLineM "  # " l 3
          (by decide) (by decide) (by decide) (by decide) (by decide)

theorem volDetailLines_clean (vd : Volume) : ∀ s ∈ volDetailLines vd, CleanLine s := by
  intro s hs
  unfold volDetailLines at hs
  simp only [List.mem_append, List.mem_cons, List.mem_singleton, List.not_mem_nil,
    or_false] at hs
  rcases hs with ((((h | h) | h) | h) | h) | h
  · exact h ▸ cleanLineM3 "    volume_type           = \"" _ "\"" 7
      (by decide) (by decide) (by decide) (by decide) (by decide) (by decide)
  · exact h ▸ cleanLineM "    volume_size           = " _ 7
      (by decide) (by decide) (by decide) (by decide) (by decide) (by decide)
  · have h := mem_of_ite_nil h
    simp only [List.mem_singleton] at h
    exact h ▸ cleanLineM "    iops                  = " _ 7
      (by decide) (by decide) (by decide) (by decide) (by decide) (by decide)
  · have h := mem_of_ite_nil h
    simp only [List.mem_singleton] at h
    exact h ▸ cleanLineM "    throughput            = " _ 7
      (by decide) (by decide) (by decide) (by decide) (by decide) (by decide)
  · have h := mem_of_ite_nil h
    simp only [List.mem_singleton] at h
    exact h ▸ cleanLine_of _ (by decide) (by decide) (by decide) (by decide)
  · have h := mem_of_ite_nil h
    simp only [List.mem_singleton] at h
    exact h ▸ cleanLineM3 "    kms_key_id            = \"" _ "\"" 7
      (by decide) (by decide) (by decide) (by decide) (by decide) (by decide)

theorem volTagsElem_clean (t : List Tag) : CleanLine ("\n" ++ formatTags t 4) := by
  obtain ⟨r, hr⟩ := tags_elem_pre4 t
  rw [hr]
  exact cleanLineM "\n    tags = \x7b" r 7
    (by decide) (by decide) (by decide) (by decide) (by decide) (by decide)

theorem deleteLine_clean (b : Bool) :
    CleanLine ("    delete_on_termination = " ++ pyBoolStr b) :=
  cleanLineM "    delete_on_termination = " _ 7
    (by decide) (by decide) (by decide) (by decide) (by decide) (by decide)

theorem rootBlockOf_shape (conv : Converter) (ebs : EbsInfo) :
    ∃ inner, rootBlockOf conv ebs = rootOpenerStr :: inner ∧ ∀ s ∈ inner, CleanLine s := by
  unfold rootBlockOf
  refine ⟨_, rfl, ?_⟩
  intro s hs
  simp only [List.append_eq, List.nil_append, List.mem_append] at hs
  rcases hs with ((hm | hd) | ht) | hc
  · cases hvd : findVolume conv.volumesData ebs.volumeId with
    | none =>
      rw [hvd] at hm
      exact absurd hm (List.not_mem_nil s)
    | some v =>
      rw [hvd] at hm
      exact volDetailLines_clean v s hm
  · simp only [List.mem_singleton] at hd
    exact hd ▸ deleteLine_clean _
  · cases hvd : findVolume conv.volumesData ebs.volumeId with
    | none =>
      rw [hvd] at ht
      exact absurd ht (List.not_mem_nil s)
    | some v =>
      rw [hvd] at ht
      have ht := mem_of_ite_nil ht
      simp only [List.mem_singleton] at ht
      exact ht ▸ volTagsElem_clean v.tags
  · simp only [List.mem_singleton] at hc
    exact hc ▸ cleanLine_of _ (by decide) (by decide) (by decide) (by decide)

theorem rootSeg_shape (conv : Converter) :
    rootSeg conv = [] ∨
      ∃ inner, rootSeg conv = rootOpenerStr :: inner ∧ ∀ s ∈ inner, CleanLine s := by
  unfold rootSeg
  by_cases h1 : (conv.instanceData.rootDeviceName.getD "" != "") = true
  · rw [if_pos h1]
    cases he : rootEbsOf conv with
    | none => exact Or.inl rfl
    | some ebs => exact Or.inr (rootBlockOf_shape conv ebs)
  · rw [if_neg h1]
    exact Or.inl rfl

theorem devline_pred_true (dn : String) :
    devLinePred ("    device_name           = \"" ++ dn ++ "\"") = true := by
  unfold devLinePred
  rw [String.append_assoc]
  exact take_pred_true devLineLit (dn ++ "\"")

theorem deleteLine_pred_false (b : Bool) :
    devLinePred ("    delete_on_termination = " ++ pyBoolStr b) = false := by
  unfold devLinePred
  exact take_pred_false devLineLit "    delete_on_termination = " (pyBoolStr b) 7
    (by decide) (by decide) (by decide)

theorem ebsBlockLines_facts (conv : Converter) (dn : String) (ebs : EbsInfo) :
    (ebsBlockLines conv dn ebs).count rootOpenerStr = 0 ∧
    (ebsBlockLines conv dn ebs).count ebsOpenerStr = 1 ∧
    (ebsBlockLines conv dn ebs).filter devLinePred = [devLineLit ++ dn ++ "\""] ∧
    udHeaderStr ∉ ebsBlockLines conv dn ebs := by
  have hM : ∀ s ∈ (match findVolume conv.volumesData ebs.volumeId with
      | some v => volDetailLines v ++ (if !v.tags.isEmpty then ["\n" ++ formatTags v.tags 4] else [])
      | none => ([] : List String)), CleanLine s := by
    cases hvd : findVolume conv.volumesData ebs.volumeId with
    | none => intro s hs; exact absurd hs (List.not_mem_nil s)
    | some v =>
      intro s hs
      rw [List.mem_append] at hs
      rcases hs with h | h
      · exact volDetailLines_clean v s h
      · have h := mem_of_ite_nil h
        simp only [List.mem_singleton] at h
        exact h ▸ volTagsElem_clean v.tags
  unfold ebsBlockLines
  refine ⟨?_, ?_, ?_, ?_⟩
  · rw [List.count_eq_zero]
    intro hmem
    simp only [List.mem_append, List.mem_cons, List.not_mem_nil, or_false] at hmem
    rcases hmem with ((h | h) | h) | h | h
    · exact absurd h (by decide)
    · exact ne_lit3 "    device_name           = \"" dn "\"" rootOpenerStr 1
        (by decide) (by decide) h.symm
    · exact (hM _ h).1 rfl
    · exact ne_lit "    delete_on_termination = " _ rootOpenerStr 1
        (by decide) (by decide) h.symm
    · exact absurd h (by decide)
  · simp only [List.count_append]
    rw [count_zero_ebs hM]
    have h1 : List.count ebsOpenerStr ["\n  ebs_block_device \x7b",
        "    device_name           = \"" ++ dn ++ "\""] = 1 := by
      rw [List.count_cons, List.count_cons, List.count_nil]
      have e1 : (("\n  ebs_block_device \x7b" : String) == ebsOpenerStr) = true := by decide
      have e2 : ((("    device_name           = \"" ++ dn ++ "\"") : String)
          == ebsOpenerStr) = false :=
        beq_eq_false_iff_ne.mpr (ne_lit3 "    device_name           = \"" dn "\""
          ebsOpenerStr 1 (by decide) (by decide))
      rw [e1, e2]
      simp
    have h2 : List.count ebsOpenerStr
        ["    delete_on_termination = " ++ pyBoolStr (ebs.deleteOnTermination.getD true),
         "  \x7d"] = 0 := by
      rw [List.count_cons, List.count_cons, List.count_nil]
      have e1 : ((("    delete_on_termination = "
          ++ pyBoolStr (ebs.deleteOnTermination.getD true)) : String) == ebsOpenerStr) = false :=
        beq_eq_false_iff_ne.mpr (ne_lit "    delete_on_termination = " _ ebsOpenerStr 1
          (by decide) (by decide))
      have e2 : (("  \x7d" : String) == ebsOpenerStr) = false := by decide
      rw [e1, e2]
      simp
    rw [h1, h2]
  · simp only [List.filter_append]
    rw [filter_dev_nil hM]
    have h1 : List.filter devLinePred ["\n  ebs_block_device \x7b",
        "    device_name           = \"" ++ dn ++ "\""] =
        ["    device_name           = \"" ++ dn ++ "\""] := by
      rw [List.filter_cons_of_neg (by decide), List.filter_cons_of_pos (devline_pred_true dn),
        List.filter_nil]
    have h2 : List.filter devLinePred
        ["    delete_on_termination = " ++ pyBoolStr (ebs.deleteOnTermination.getD true),
         "  \x7d"] = [] := by
      rw [List.filter_cons_of_neg (by simp [deleteLine_pred_false]),
        List.filter_cons_of_neg (by decide), List.filter_nil]
    rw [h1, h2]
    simp only [List.append_nil]
    rfl
  · intro hmem
    simp only [List.mem_append, List.mem_cons, List.not_mem_nil, or_false] at hmem
    rcases hmem with ((h | h) | h) | h | h
    · exact absurd h (by decide)
    · exact ne_lit3 "    device_name           = \"" dn "\"" udHeaderStr 3
        (by decide) (by decide) h.symm
    · exact not_mem_ud hM h
    · exact ne_lit "    delete_on_termination = " _ udHeaderStr 3
        (by decide) (by decide) h.symm
    · exact absurd h (by decide)

theorem ebsBlocks_facts (conv : Converter) (l : List BlockDeviceMapping)
    (hl : ∀ bd ∈ l, bd.ebs.isSome) :
    (ebsBlocks conv l).count rootOpenerStr = 0 ∧
    (ebsBlocks conv l).count ebsOpenerStr = l.length ∧
    (ebsBlocks conv l).filter devLinePred
      = l.map (fun bd => devLineLit ++ bd.deviceName ++ "\"") ∧
    udHeaderStr ∉ ebsBlocks conv l := by
  induction l with
  | nil =>
    refine ⟨rfl, rfl, rfl, ?_⟩
    exact List.not_mem_nil udHeaderStr
  | cons bd rest ih =>
    obtain ⟨h0, h1, h2, h3⟩ := ih (fun b hb => hl b (List.mem_cons_of_mem bd hb))
    have hbs : bd.ebs.isSome := hl bd (List.mem_cons_self bd rest)
    cases hbe : bd.ebs with
    | none => rw [hbe] at hbs; exact absurd hbs (by decide)
    | some ebs =>
      obtain ⟨g0, g1, g2, g3⟩ := ebsBlockLines_facts conv bd.deviceName ebs
      have hunf : ebsBlocks conv (bd :: rest)
          = ebsBlockLines conv bd.deviceName ebs ++ ebsBlocks conv rest := by
        show (match bd.ebs with
          | some e => ebsBlockLines conv bd.deviceName e
          | none => []) ++ ebsBlocks conv rest
          = ebsBlockLines conv bd.deviceName ebs ++ ebsBlocks conv rest
        rw [hbe]
      rw [hunf]
      refine ⟨?_, ?_, ?_, ?_⟩
      · rw [List.count_append, h0, g0]
      · rw [List.count_append, h1, g1, List.length_cons]
        omega
      · rw [List.filter_append, g2, h2, List.map_cons]
        rfl
      · intro hmem
        rw [List.mem_append] at hmem
        rcases hmem with h | h
        · exact g3 h
        · exact h3 h

theorem ebsDevices_all_some (inst : InstanceData) :
    ∀ bd ∈ ebsDevices inst, bd.ebs.isSome := by
  intro bd hbd
  unfold ebsDevices at hbd
  rw [List.mem_filter] at hbd
  exact (Bool.and_eq_true_iff.mp hbd.2).2

theorem ebsSeg_facts (conv : Converter) :
    (ebsSeg conv).count rootOpenerStr = 0 ∧
    (ebsSeg conv).count ebsOpenerStr = (ebsDevices conv.instanceData).length ∧
    (ebsSeg conv).filter devLinePred
      = (ebsDevices conv.instanceData).map (fun bd => devLineLit ++ bd.deviceName ++ "\"") ∧
    udHeaderStr ∉ ebsSeg conv :=
  ebsBlocks_facts conv (ebsDevices conv.instanceData) (ebsDevices_all_some conv.instanceData)

theorem ephemeralBlocks_clean (l : List BlockDeviceMapping) :
    ∀ s ∈ ephemeralBlocks l, CleanLine s := by
  induction l with
  | nil => intro s hs; exact absurd hs (List.not_mem_nil s)
  | cons bd rest ih =>
    intro s hs
    have hunf : ephemeralBlocks (bd :: rest)
        = (if truthyS bd.virtualName then
            ["\n  ephemeral_block_device \x7b",
             "    device_name  = \"" ++ bd.deviceName ++ "\"",
             "    virtual_name = \"" ++ bd.virtualName.getD "" ++ "\"",
             "  \x7d"]
           else []) ++ ephemeralBlocks rest := rfl
    rw [hunf, List.mem_append] at hs
    rcases hs with h | h
    · have h := mem_of_ite_nil h
      simp only [List.mem_cons, List.mem_singleton, List.not_mem_nil, or_false] at h
      rcases h with h | h | h | h
      · exact h ▸ cleanLine_of _ (by decide) (by decide) (by decide) (by decide)
      · exact h ▸ cleanLineM3 "    device_name  = \"" _ "\"" 18
          (by decide) (by decide) (by decide) (by decide) (by decide) (by decide)
      · exact h ▸ cleanLineM3 "    virtual_name = \"" _ "\"" 7
          (by decide) (by decide) (by decide) (by decide) (by decide) (by decide)
      · exact h ▸ cleanLine_of _ (by decide) (by decide) (by decide) (by decide)
    · exact ih s h

theorem ephemeralSeg_clean (inst : InstanceData) : ∀ s ∈ ephemeralSeg inst, CleanLine s :=
  ephemeralBlocks_clean inst.blockDeviceMappings

/-! Lemmas about the sanitizer. -/

theorem sanitize_nil (s : String) (hd : s.data = []) : sanitizeResourceName s = "instance" := by
  unfold sanitizeResourceName
  rw [hd]
  rfl

theorem sanitize_cons (c : Char) (cs : List Char) (s : String) (hd : s.data = c :: cs) :
    sanitizeResourceName s =
      String.mk ((if (pySanitizeChar c).isDigit then
        '_' :: pySanitizeChar c :: cs.map pySanitizeChar
        else pySanitizeChar c :: cs.map pySanitizeChar).map Char.toLower) := by
  unfold sanitizeResourceName
  rw [hd]
  by_cases hdig : (pySanitizeChar c).isDigit = true
  · rw [List.map_cons]
    simp only [hdig]
    rfl
  · rw [List.map_cons]
    simp only [Bool.not_eq_true] at hdig
    simp only [hdig]
    rfl

theorem toLower_alnum (c : Char) (h : c.isAlphanum = true) : c.toLower.isAlphanum = true := by
  unfold Char.toLower
  by_cases hb : c.toNat ≥ 65 ∧ c.toNat ≤ 90
  · rw [if_pos hb]
    obtain ⟨h1, h2⟩ := hb
    generalize c.toNat = m at h1 h2
    interval_cases m <;> decide
  · rw [if_neg hb]
    exact h

theorem toLower_not_digit (c : Char) (h : c.isDigit = false) : c.toLower.isDigit = false := by
  unfold Char.toLower
  by_cases hb : c.toNat ≥ 65 ∧ c.toNat ≤ 90
  · rw [if_pos hb]
    obtain ⟨h1, h2⟩ := hb
    generalize c.toNat = m at h1 h2
    interval_cases m <;> decide
  · rw [if_neg hb]
    exact h

theorem toLower_idem (c : Char) : c.toLower.toLower = c.toLower := by
  by_cases hb : c.toNat ≥ 65 ∧ c.toNat ≤ 90
  · have e : c.toLower = Char.ofNat (c.toNat + 32) := by
      unfold Char.toLower
      rw [if_pos hb]
    rw [e]
    obtain ⟨h1, h2⟩ := hb
    generalize c.toNat = m at h1 h2
    interval_cases m <;> decide
  · have e : c.toLower = c := by
      unfold Char.toLower
      rw [if_neg hb]
    rw [e, e]

theorem pySanitizeChar_ok (c : Char) :
    (pySanitizeChar c).isAlphanum = true ∨ pySanitizeChar c = '_' := by
  unfold pySanitizeChar
  by_cases h : (c.isAlphanum || decide (c = '_')) = true
  · rw [if_pos h]
    rcases Bool.or_eq_true_iff.mp h with h2 | h2
    · exact Or.inl h2
    · exact Or.inr (of_decide_eq_true h2)
  · rw [if_neg h]
    right
    rfl

theorem toLower_ascii (c : Char) (h : c.toNat < 128) : c.toLower.toNat < 128 := by
  unfold Char.toLower
  by_cases hb : c.toNat ≥ 65 ∧ c.toNat ≤ 90
  · rw [if_pos hb]
    obtain ⟨h1, h2⟩ := hb
    generalize c.toNat = m at h1 h2
    interval_cases m <;> decide
  · rw [if_neg hb]
    exact h

theorem sanitize_eq_spec (s : String) : sanitizeResourceName s = sanitizeSpec s := by
  cases hd : s.data with
  | nil =>
    rw [sanitize_nil s hd]
    unfold sanitizeSpec
    rw [hd]
    rfl
  | cons c cs =>
    rw [sanitize_cons c cs s hd]
    unfold sanitizeSpec
    rw [hd]
    rfl

theorem pySanitizeChar_ascii (l : List Char) (h : ∀ c ∈ l, c.toNat < 128) :
    ∀ x ∈ l.map pySanitizeChar, x.toNat < 128 := by
  intro x hx
  obtain ⟨y, hy, he⟩ := List.mem_map.mp hx
  unfold pySanitizeChar at he
  by_cases hc : (y.isAlphanum || decide (y = '_')) = true
  · rw [if_pos hc] at he
    exact he ▸ h y hy
  · rw [if_neg hc] at he
    rw [← he]
    decide

theorem ucd_alnum_ascii (c : Char) (h : c.toNat < 128) : ucdIsAlnum c = c.isAlphanum := by
  have h1 : ¬ (c = '\u0130') := fun e => absurd (e ▸ h) (by decide)
  have h2 : ¬ (c = '\u0307') := fun e => absurd (e ▸ h) (by decide)
  unfold ucdIsAlnum
  rw [if_neg h1, if_neg h2]

theorem ucd_digit_ascii (c : Char) (h : c.toNat < 128) : ucdIsDigit c = c.isDigit := by
  have h1 : ¬ (c = '\u0130') := fun e => absurd (e ▸ h) (by decide)
  have h2 : ¬ (c = '\u0307') := fun e => absurd (e ▸ h) (by decide)
  unfold ucdIsDigit
  rw [if_neg h1, if_neg h2]

theorem ucd_lower_ascii (c : Char) (h : c.toNat < 128) : ucdLower c = [c.toLower] := by
  have h1 : ¬ (c = '\u0130') := fun e => absurd (e ▸ h) (by decide)
  unfold ucdLower
  rw [if_neg h1]

theorem ucd_char_ascii (c : Char) (h : c.toNat < 128) :
    (if ucdIsAlnum c || c = '_' then c else '_') = pySanitizeChar c := by
  unfold pySanitizeChar
  simp only [ucd_alnum_ascii c h]

theorem sanitizeU_map_eq (l : List Char) (h : ∀ c ∈ l, c.toNat < 128) :
    l.map (fun c => if ucdIsAlnum c || c = '_' then c else '_') = l.map pySanitizeChar :=
  List.map_congr_left (fun c hc => ucd_char_ascii c (h c hc))

theorem join_ucdLower (l : List Char) (h : ∀ c ∈ l, c.toNat < 128) :
    (l.map ucdLower).flatten = l.map Char.toLower := by
  induction l with
  | nil => rfl
  | cons c cs ih =>
    rw [List.map_cons, List.map_cons, List.flatten_cons]
    rw [ucd_lower_ascii c (h c (List.mem_cons_self c cs))]
    rw [ih (fun x hx => h x (List.mem_cons_of_mem c hx))]
    rfl

theorem sanitizeU_ascii_eq (name : String) (h : ∀ c ∈ name.data, c.toNat < 128) :
    sanitizeResourceNameU ucdIsAlnum ucdIsDigit ucdLower name = sanitizeResourceName name := by
  rw [sanitize_eq_spec name]
  unfold sanitizeResourceNameU sanitizeSpec
  rw [sanitizeU_map_eq name.data h]
  have hall : ∀ x ∈ name.data.map pySanitizeChar, x.toNat < 128 :=
    pySanitizeChar_ascii name.data h
  revert hall
  cases name.data.map pySanitizeChar with
  | nil =>
    intro _
    rfl
  | cons c cs =>
    intro hall
    show String.mk (((if ucdIsDigit c then '_' :: c :: cs else c :: cs).map ucdLower).flatten)
      = String.mk ((if c.isDigit then '_' :: c :: cs else c :: cs).map Char.toLower)
    simp only [ucd_digit_ascii c (hall c (List.mem_cons_self c cs))]
    have hL : ∀ x ∈ (if c.isDigit then '_' :: c :: cs else c :: cs), x.toNat < 128 := by
      intro x hx
      by_cases hd : c.isDigit = true
      · rw [if_pos hd] at hx
        rcases List.mem_cons.mp hx with h1 | h1
        · rw [h1]
          decide
        · exact hall x h1
      · rw [if_neg hd] at hx
        exact hall x hx
    exact congrArg String.mk (join_ucdLower _ hL)

theorem sanitize_output_ascii (name : String) (h : ∀ c ∈ name.data, c.toNat < 128) :
    ∀ x ∈ (sanitizeResourceName name).data, x.toNat < 128 := by
  rw [sanitize_eq_spec name]
  unfold sanitizeSpec
  have hall : ∀ x ∈ name.data.map pySanitizeChar, x.toNat < 128 :=
    pySanitizeChar_ascii name.data h
  revert hall
  cases name.data.map pySanitizeChar with
  | nil =>
    intro _
    decide
  | cons c cs =>
    intro hall x hx
    have hx2 : x ∈ (if c.isDigit then '_' :: c :: cs else c :: cs).map Char.toLower := hx
    obtain ⟨y, hy, he⟩ := List.mem_map.mp hx2
    have hy128 : y.toNat < 128 := by
      by_cases hd : c.isDigit = true
      · rw [if_pos hd] at hy
        rcases List.mem_cons.mp hy with h1 | h1
        · rw [h1]
          decide
        · exact hall y h1
      · rw [if_neg hd] at hy
        exact hall y hy
    exact he ▸ toLower_ascii y hy128

/-! The claims. -/

/-- C1 (code_bug evidence): the tag formatter emits the entries in the
input list's order, not sorted by key — on the two-tag input with keys
b then a, the b entry precedes the a entry, and swapping the input
order changes the output, contradicting the claimed input-order
independence. -/
theorem c1_format_tags_emits_input_order :
    formatTags [⟨"b", "1"⟩, ⟨"a", "2"⟩] 2
      = "  tags = \x7b\n    b = \"1\"\n    a = \"2\"\n  \x7d" ∧
    formatTags [⟨"b", "1"⟩, ⟨"a", "2"⟩] 2 ≠ formatTags [⟨"a", "2"⟩, ⟨"b", "1"⟩] 2 :=
  ⟨by decide, by decide⟩

/-- C2: generation is a deterministic function of the converter state and
the frozen header timestamp — two runs on equal inputs produce equal
output text. -/
theorem c2_generation_deterministic (b64 : String → Option String)
    (conv1 conv2 : Converter) (now1 now2 : String)
    (h1 : conv1 = conv2) (h2 : now1 = now2) :
    generateTerraform b64 conv1 now1 = generateTerraform b64 conv2 now2 := by
  rw [h1, h2]

/-- Witness for C2 at a concrete converter and timestamp. -/
theorem c2_witness :
    convMin = convMin ∧
    generateTerraform (fun _ => none) convMin "2024-01-01T00:00:00"
      = generateTerraform (fun _ => none) convMin "2024-01-01T00:00:00" :=
  ⟨rfl, c2_generation_deterministic (fun _ => none) convMin convMin
    "2024-01-01T00:00:00" "2024-01-01T00:00:00" rfl rfl⟩

/-- The sanitizer over the ASCII character model is idempotent; this is
the ASCII core of the Unicode-aware idempotence statement below. -/
theorem sanitizeResourceName_idem :
    ∀ s : String, sanitizeResourceName (sanitizeResourceName s) = sanitizeResourceName s := by
  intro s
  cases hd : s.data with
  | nil =>
    rw [sanitize_nil s hd]
    decide
  | cons c cs =>
    rw [sanitize_cons c cs s hd]
    have hall : ∀ x ∈ (if (pySanitizeChar c).isDigit then
        '_' :: pySanitizeChar c :: cs.map pySanitizeChar
        else pySanitizeChar c :: cs.map pySanitizeChar),
        x.isAlphanum = true ∨ x = '_' := by
      intro x hx
      by_cases hdig : (pySanitizeChar c).isDigit = true
      · rw [if_pos hdig] at hx
        rcases List.mem_cons.mp hx with h | h
        · right; exact h
        · rcases List.mem_cons.mp h with h2 | h2
          · exact h2 ▸ pySanitizeChar_ok c
          · obtain ⟨y, _, hy⟩ := List.mem_map.mp h2
            exact hy ▸ pySanitizeChar_ok y
      · rw [if_neg hdig] at hx
        rcases List.mem_cons.mp hx with h | h
        · exact h ▸ pySanitizeChar_ok c
        · obtain ⟨y, _, hy⟩ := List.mem_map.mp h
          exact hy ▸ pySanitizeChar_ok y
    have hcons : ∃ c0 rest, (if (pySanitizeChar c).isDigit then
        '_' :: pySanitizeChar c :: cs.map pySanitizeChar
        else pySanitizeChar c :: cs.map pySanitizeChar) = c0 :: rest ∧ c0.isDigit = false := by
      by_cases hdig : (pySanitizeChar c).isDigit = true
      · exact ⟨'_', _, by rw [if_pos hdig], by decide⟩
      · simp only [Bool.not_eq_true] at hdig
        exact ⟨pySanitizeChar c, _, by rw [if_neg (by simp [hdig])], hdig⟩
    obtain ⟨c0, rest, he, hc0⟩ := hcons
    rw [he] at hall ⊢
    rw [List.map_cons]
    rw [sanitize_cons c0.toLower (rest.map Char.toLower) _ rfl]
    have hfix : ∀ x, x.isAlphanum = true ∨ x = '_' → pySanitizeChar x.toLower = x.toLower := by
      intro x hx
      have hlow : x.toLower.isAlphanum = true ∨ x.toLower = '_' := by
        rcases hx with h | h
        · exact Or.inl (toLower_alnum x h)
        · right; rw [h]; decide
      unfold pySanitizeChar
      rcases hlow with h | h
      · rw [if_pos (Bool.or_eq_true_iff.mpr (Or.inl h))]
      · rw [if_pos (Bool.or_eq_true_iff.mpr (Or.inr (decide_eq_true h)))]
    have h1 : pySanitizeChar c0.toLower = c0.toLower :=
      hfix c0 (hall c0 (List.mem_cons_self c0 rest))
    rw [h1]
    have hnd : c0.toLower.isDigit = false := toLower_not_digit c0 hc0
    rw [if_neg (by simp [hnd])]
    have h2 : (rest.map Char.toLower).map pySanitizeChar = rest.map Char.toLower := by
      rw [List.map_map]
      exact List.map_congr_left
        (fun x hx => hfix x (hall x (List.mem_cons_of_mem c0 hx)))
    rw [h2, List.map_cons, toLower_idem c0]
    have h3 : (rest.map Char.toLower).map Char.toLower = rest.map Char.toLower := by
      rw [List.map_map]
      exact List.map_congr_left (fun x _ => toLower_idem x)
    rw [h3]

/-- C6 counterexample: over the Unicode character data the sanitizer is
not idempotent.  On the single-character input U+0130 the first pass keeps
the letter (it is alphanumeric) and the final lower-casing expands it to
"i" followed by the combining mark U+0307; the second pass replaces the
combining mark, which is not alphanumeric, with an underscore, so
sanitizing twice differs from sanitizing once. -/
theorem c6_sanitize_not_idempotent_cx :
    sanitizeResourceNameU ucdIsAlnum ucdIsDigit ucdLower
        (sanitizeResourceNameU ucdIsAlnum ucdIsDigit ucdLower "\u0130")
      ≠ sanitizeResourceNameU ucdIsAlnum ucdIsDigit ucdLower "\u0130" := by
  decide

/-- C6 (amended): on input whose characters are all ASCII — where the
Unicode predicate and lowercase tables agree with the ASCII ones and
lower-casing never expands a character — the sanitizer is idempotent. -/
theorem c6_sanitize_idempotent_ascii (name : String)
    (h : ∀ c ∈ name.data, c.toNat < 128) :
    sanitizeResourceNameU ucdIsAlnum ucdIsDigit ucdLower
        (sanitizeResourceNameU ucdIsAlnum ucdIsDigit ucdLower name)
      = sanitizeResourceNameU ucdIsAlnum ucdIsDigit ucdLower name := by
  rw [sanitizeU_ascii_eq name h]
  rw [sanitizeU_ascii_eq (sanitizeResourceName name) (sanitize_output_ascii name h)]
  exact sanitizeResourceName_idem name

/-- Witness for C6 at a concrete ASCII input. -/
theorem c6_witness :
    (∀ c ∈ ("3-Test Zone!" : String).data, c.toNat < 128) ∧
    sanitizeResourceNameU ucdIsAlnum ucdIsDigit ucdLower
        (sanitizeResourceNameU ucdIsAlnum ucdIsDigit ucdLower "3-Test Zone!")
      = sanitizeResourceNameU ucdIsAlnum ucdIsDigit ucdLower "3-Test Zone!" :=
  ⟨by decide, c6_sanitize_idempotent_ascii "3-Test Zone!" (by decide)⟩

/-- C7: the sanitizer agrees everywhere with the spec description
(replace non-alphanumeric non-underscore characters, prepend an
underscore before a leading digit, lower-case, fixed fallback on empty
input), and in particular maps "3-test zone!" to "_3_test_zone_" and
the empty string to "instance". -/
theorem c7_sanitize_contract :
    (∀ s : String, sanitizeResourceName s = sanitizeSpec s) ∧
    sanitizeResourceName "3-test zone!" = "_3_test_zone_" ∧
    sanitizeResourceName "" = "instance" := by
  refine ⟨?_, by decide, by decide⟩
  intro s
  cases hd : s.data with
  | nil =>
    rw [sanitize_nil s hd]
    unfold sanitizeSpec
    rw [hd]
    rfl
  | cons c cs =>
    rw [sanitize_cons c cs s hd]
    unfold sanitizeSpec
    rw [hd]
    rfl

/-- C10: with a present-but-empty NetworkInterfaces list and no
instance-level security groups, the primary emitter evaluates
instance.get('NetworkInterfaces', [...])[0] on the empty list and
raises IndexError instead of emitting a block. -/
theorem c10_empty_interface_list_raises (b64 : String → Option String) (conv : Converter)
    (h1 : conv.instanceData.networkInterfaces = some [])
    (h2 : conv.instanceData.securityGroups = []) :
    genInstanceLines b64 conv = .error .indexError := by
  have hc : sgCond conv.instanceData = .error .indexError := by
    unfold sgCond
    rw [h2, h1]
    rfl
  have hseg : sgSegment conv.instanceData = .error .indexError := by
    unfold sgSegment
    rw [hc]
  unfold genInstanceLines
  rw [hseg]

/-- Witness for C10 at a concrete converter. -/
theorem c10_witness :
    convEmptyNi.instanceData.networkInterfaces = some [] ∧
    convEmptyNi.instanceData.securityGroups = [] ∧
    genInstanceLines (fun _ => none) convEmptyNi = .error .indexError :=
  ⟨rfl, rfl, c10_empty_interface_list_raises (fun _ => none) convEmptyNi rfl rfl⟩

/-- C9 (counterexample): the write is not atomic.  With previous
destination contents "OLD" and a write that fails after one character,
the destination is left holding the one-character prefix of the new
text — neither untouched nor fully written — because opening with mode
w truncates before writing. -/
theorem c9_write_not_atomic_cx :
    (generateTerraformToFile (fun _ => none) convMin "2024-01-01T00:00:00"
        (some "OLD") (some 1)).2 = .error .ioError ∧
    (generateTerraformToFile (fun _ => none) convMin "2024-01-01T00:00:00"
        (some "OLD") (some 1)).1 = some "#" ∧
    (some "#" : Option String) ≠ some "OLD" :=
  ⟨rfl, rfl, by decide⟩

/-- C9 (amended): a failing write is reported and fatal to the invocation
and is attempted exactly once, but the destination is truncated on open
and left holding a prefix of the new text, not its previous contents; a
successful write stores the full text. -/
theorem c9_write_failure_fatal_and_truncates (b64 : String → Option String)
    (conv : Converter) (now : String) (prior : Option String) (n : Nat) (t : String)
    (hgen : generateTerraform b64 conv now = .ok t) :
    generateTerraformToFile b64 conv now prior (some n)
      = (some (String.mk (t.data.take n)), .error .ioError) ∧
    (String.mk (t.data.take n)).data <+: t.data ∧
    generateTerraformToFile b64 conv now prior none = (some t, .ok t) := by
  refine ⟨?_, ⟨t.data.drop n, List.take_append_drop n t.data⟩, ?_⟩
  · unfold generateTerraformToFile writeOutput
    rw [hgen]
  · unfold generateTerraformToFile writeOutput
    rw [hgen]

/-- Witness for the amended C9 at a concrete converter, prior contents and
failure point. -/
theorem c9_witness : ∃ t, generateTerraform (fun _ => none) convMin "2024-01-01T00:00:00" = .ok t ∧
    generateTerraformToFile (fun _ => none) convMin "2024-01-01T00:00:00" (some "OLD") (some 1)
      = (some (String.mk (t.data.take 1)), .error .ioError) :=
  ⟨_, rfl, (c9_write_failure_fatal_and_truncates (fun _ => none) convMin "2024-01-01T00:00:00"
    (some "OLD") 1 _ rfl).1⟩

/-- C8 (counterexample): even a description with nothing set beyond image
and type produces a nested block other than the root-storage block — the
fixed lifecycle placeholder block is always emitted. -/
theorem c8_no_other_blocks_cx :
    ∃ ls, genInstanceLines (fun _ => none) convMin = .ok ls ∧
      ¬ (∀ s ∈ ls, IsNestedBlockOpener s → s = rootOpenerStr) := by
  refine ⟨_, rfl, ?_⟩
  intro h
  have hop : IsNestedBlockOpener "\n  lifecycle \x7b" := ⟨by decide, by decide⟩
  exact absurd (h "\n  lifecycle \x7b" (by decide) hop) (by decide)

/-- C8 (amended): for a description with no optional field set beyond the
mandatory image and type, the emitted primary block is exactly the two
mandatory field lines under the resource opener, followed by the fixed
trailer (volume_tags advisory comment, the always-emitted lifecycle
placeholder block, closing brace) — no optional field line and no
data-driven nested block appears. -/
theorem c8_minimal_output (b64 : String → Option String) (conv : Converter)
    (hmin : MinimalInstance conv.instanceData) :
    genInstanceLines b64 conv = .ok
      (["resource \"aws_instance\" \"" ++ sanitizeResourceName conv.instanceId ++ "\" \x7b",
        "  ami           = \"" ++ conv.instanceData.imageId.getD "" ++ "\"",
        "  instance_type = \"" ++ conv.instanceData.instanceType.getD "" ++ "\""]
       ++ trailerSeg) := by
  obtain ⟨hk, hp, hsub, hsg, hni, hpip, hiam, hsdc, hmon, hebs, hdat, hcs, hmo, heo,
    hcrs, hho, hud, hrdn, hbdm, htags⟩ := hmin
  have hc : sgCond conv.instanceData = .ok false := by
    unfold sgCond
    rw [hsg, hni]
    rfl
  have hseg : sgSegment conv.instanceData = .ok [] := by
    unfold sgSegment
    rw [hc]
    rfl
  have hrn : resourceNameOf conv = sanitizeResourceName conv.instanceId := by
    unfold resourceNameOf instanceNameOf
    rw [htags]
    rfl
  have e1 : keySeg conv.instanceData = [] := by unfold keySeg; rw [hk]; rfl
  have e2 : azSeg conv.instanceData = [] := by unfold azSeg; rw [hp]; rfl
  have e3 : subnetSeg conv.instanceData = [] := by unfold subnetSeg; rw [hsub]; rfl
  have e4 : privateIpSeg conv.instanceData = [] := by unfold privateIpSeg; rw [hpip]; rfl
  have e5 : iamSeg conv.instanceData = [] := by unfold iamSeg; rw [hiam]
  have e6 : srcDstSeg conv.instanceData = [] := by unfold srcDstSeg; rw [hsdc]; rfl
  have e7 : monitoringSeg conv.instanceData = [] := by unfold monitoringSeg; rw [hmon]; rfl
  have e8 : ebsOptSeg conv.instanceData = [] := by unfold ebsOptSeg; rw [hebs]; rfl
  have e9 : disableTermSeg conv.instanceData = [] := by unfold disableTermSeg; rw [hdat]; rfl
  have e10 : tenancySeg conv.instanceData = [] := by unfold tenancySeg; rw [hp]; rfl
  have e11 : pgroupSeg conv.instanceData = [] := by unfold pgroupSeg; rw [hp]; rfl
  have e12 : hostIdSeg conv.instanceData = [] := by unfold hostIdSeg; rw [hp]; rfl
  have e13 : creditSeg conv.instanceData = [] := by unfold creditSeg; rw [hcs]
  have e14 : metadataSeg conv.instanceData = [] := by unfold metadataSeg; rw [hmo]
  have e15 : enclaveSeg conv.instanceData = [] := by unfold enclaveSeg; rw [heo]; rfl
  have e16 : capResSeg conv.instanceData = [] := by unfold capResSeg; rw [hcrs]
  have e17 : hibernationSeg conv.instanceData = [] := by unfold hibernationSeg; rw [hho]; rfl
  have e18 : userDataSeg b64 conv.instanceData = [] := by unfold userDataSeg; rw [hud]; rfl
  have e19 : rootSeg conv = [] := by unfold rootSeg; rw [hrdn]; rfl
  have e20 : ebsSeg conv = [] := by unfold ebsSeg ebsDevices; rw [hbdm]; rfl
  have e21 : ephemeralSeg conv.instanceData = [] := by unfold ephemeralSeg; rw [hbdm]; rfl
  have e22 : tagsSeg conv.instanceData = [] := by unfold tagsSeg; rw [htags]; rfl
  unfold genInstanceLines
  rw [hseg]
  rw [e1, e2, e3, e4, e5, e6, e7, e8, e9, e10, e11, e12, e13, e14, e15, e16, e17, e18,
    e19, e20, e21, e22, hrn]
  simp only [List.append_nil, List.nil_append]
  unfold headSeg
  rfl

/-- Witness for the amended C8 at a concrete minimal converter. -/
theorem c8_witness :
    MinimalInstance convMin.instanceData ∧
    genInstanceLines (fun _ => none) convMin = .ok
      (["resource \"aws_instance\" \"" ++ sanitizeResourceName convMin.instanceId ++ "\" \x7b",
        "  ami           = \"" ++ convMin.instanceData.imageId.getD "" ++ "\"",
        "  instance_type = \"" ++ convMin.instanceData.instanceType.getD "" ++ "\""]
       ++ trailerSeg) := by
  have hmin : MinimalInstance convMin.instanceData :=
    ⟨rfl, rfl, rfl, rfl, rfl, rfl, rfl, rfl, rfl, rfl,
     rfl, rfl, rfl, rfl, rfl, rfl, rfl, rfl, rfl, rfl⟩
  exact ⟨hmin, c8_minimal_output (fun _ => none) convMin hmin⟩

theorem sgCond_ok_of {inst : InstanceData} (h : SgOk inst) : ∃ c, sgCond inst = .ok c := by
  unfold sgCond
  by_cases hb : (!inst.securityGroups.isEmpty) = true
  · rw [if_pos hb]
    exact ⟨true, rfl⟩
  · rw [if_neg hb]
    cases hni : inst.networkInterfaces with
    | none => exact ⟨false, rfl⟩
    | some l =>
      cases l with
      | nil =>
        exfalso
        rcases h with h | h
        · exact h hni
        · apply h
          apply List.isEmpty_iff.mp
          revert hb
          cases inst.securityGroups.isEmpty <;> simp
      | cons ni rest => exact ⟨_, rfl⟩

theorem sgSegment_ok_of {inst : InstanceData} (h : SgOk inst) :
    ∃ sg, sgSegment inst = .ok sg := by
  obtain ⟨c, hc⟩ := sgCond_ok_of h
  unfold sgSegment
  rw [hc]
  have e : (match (Except.ok c : Except PyErr Bool) with
      | .error e => (Except.error e : Except PyErr (List String))
      | .ok c =>
        if c then
          (if (sgIds inst).isEmpty then .ok []
           else .ok ["  vpc_security_group_ids = " ++ pyJsonDumps (sgIds inst)])
        else .ok []) =
      (if c then
        (if (sgIds inst).isEmpty then (.ok [] : Except PyErr (List String))
         else .ok ["  vpc_security_group_ids = " ++ pyJsonDumps (sgIds inst)])
       else .ok []) := rfl
  rw [e]
  by_cases hcc : c = true
  · rw [if_pos hcc]
    by_cases he : (sgIds inst).isEmpty = true
    · rw [if_pos he]
      exact ⟨[], rfl⟩
    · rw [if_neg he]
      exact ⟨_, rfl⟩
  · rw [if_neg hcc]
    exact ⟨[], rfl⟩

theorem rootEbsOf_some (conv : Converter) (rdn : String)
    (hrdn : conv.instanceData.rootDeviceName = some rdn)
    (hex : ∃ bd ∈ conv.instanceData.blockDeviceMappings, bd.deviceName = rdn)
    (hre : ∀ bd ∈ conv.instanceData.blockDeviceMappings, bd.deviceName = rdn → bd.ebs.isSome) :
    ∃ ebs, rootEbsOf conv = some ebs := by
  unfold rootEbsOf
  rw [hrdn]
  simp only [Option.getD_some]
  obtain ⟨bd0, hbd0, hname0⟩ := hex
  have hsome : (conv.instanceData.blockDeviceMappings.find?
      (fun bd => bd.deviceName == rdn)).isSome := by
    rw [List.find?_isSome]
    exact ⟨bd0, hbd0, by simp [hname0]⟩
  obtain ⟨bd, hbd⟩ := Option.isSome_iff_exists.mp hsome
  rw [hbd]
  have hmem := List.mem_of_find?_eq_some hbd
  have hname : bd.deviceName = rdn := by
    have := List.find?_some hbd
    simpa using this
  obtain ⟨ebs, hebs⟩ := Option.isSome_iff_exists.mp (hre bd hmem hname)
  exact ⟨ebs, hebs⟩

theorem rootBlockOf_facts (conv : Converter) (ebs : EbsInfo) :
    (rootBlockOf conv ebs).count rootOpenerStr = 1 ∧
    (rootBlockOf conv ebs).count ebsOpenerStr = 0 ∧
    (rootBlockOf conv ebs).filter devLinePred = [] ∧
    udHeaderStr ∉ rootBlockOf conv ebs := by
  obtain ⟨inner, heq, hclean⟩ := rootBlockOf_shape conv ebs
  rw [heq]
  refine ⟨?_, ?_, ?_, ?_⟩
  · rw [List.count_cons_self, count_zero_root hclean]
  · rw [List.count_cons_of_ne (by decide), count_zero_ebs hclean]
  · rw [List.filter_cons_of_neg (by decide), filter_dev_nil hclean]
  · intro hm
    rcases List.mem_cons.mp hm with h | h
    · exact absurd h (by decide)
    · exact not_mem_ud hclean h

theorem rootSeg_facts (conv : Converter) (rdn : String)
    (hrdn : conv.instanceData.rootDeviceName = some rdn) (hne : rdn ≠ "")
    (hfound : ∃ ebs, rootEbsOf conv = some ebs) :
    (rootSeg conv).count rootOpenerStr = 1 ∧
    (rootSeg conv).count ebsOpenerStr = 0 ∧
    (rootSeg conv).filter devLinePred = [] ∧
    udHeaderStr ∉ rootSeg conv := by
  obtain ⟨ebs, hebs⟩ := hfound
  have hseg : rootSeg conv = rootBlockOf conv ebs := by
    unfold rootSeg
    rw [hrdn]
    simp only [Option.getD_some]
    rw [if_pos (by exact bne_iff_ne.mpr hne), hebs]
  rw [hseg]
  exact rootBlockOf_facts conv ebs

theorem rootSeg_not_ud (conv : Converter) : udHeaderStr ∉ rootSeg conv := by
  rcases rootSeg_shape conv with h | ⟨inner, heq, hclean⟩
  · rw [h]
    exact List.not_mem_nil udHeaderStr
  · rw [heq]
    intro hm
    rcases List.mem_cons.mp hm with h2 | h2
    · exact absurd h2 (by decide)
    · exact not_mem_ud hclean h2

/-- C3: with a root device name, a block-device entry matching it that
carries a volume reference, and a non-raising security-group guard, the
primary emitter renders exactly one root-storage block; every other
entry carrying a volume reference is rendered exactly once as an
additional-storage block, in the block-device list's original order
(witnessed by the sequence of emitted device_name lines), and no
storage entry is duplicated. -/
theorem c3_storage_blocks (b64 : String → Option String) (conv : Converter) (rdn : String)
    (hrdn : conv.instanceData.rootDeviceName = some rdn)
    (hne : rdn ≠ "")
    (hex : ∃ bd ∈ conv.instanceData.blockDeviceMappings, bd.deviceName = rdn)
    (hre : ∀ bd ∈ conv.instanceData.blockDeviceMappings, bd.deviceName = rdn → bd.ebs.isSome)
    (hsg : SgOk conv.instanceData) :
    ∃ ls, genInstanceLines b64 conv = .ok ls ∧
      ls.count rootOpenerStr = 1 ∧
      ls.count ebsOpenerStr
        = (conv.instanceData.blockDeviceMappings.filter
            (fun bd => !(bd.deviceName == rdn) && bd.ebs.isSome)).length ∧
      ls.filter devLinePred
        = (conv.instanceData.blockDeviceMappings.filter
            (fun bd => !(bd.deviceName == rdn) && bd.ebs.isSome)).map
            (fun bd => devLineLit ++ bd.deviceName ++ "\"") := by
  obtain ⟨sg, hseg⟩ := sgSegment_ok_of hsg
  have hsgclean := sgSegment_ok_clean hseg
  have hroot := rootSeg_facts conv rdn hrdn hne (rootEbsOf_some conv rdn hrdn hex hre)
  have hebsf := ebsSeg_facts conv
  have hu1 : (userDataSeg b64 conv.instanceData).count rootOpenerStr = 0 :=
    List.count_eq_zero.mpr (fun hm => (userDataSeg_clean3 b64 conv.instanceData _ hm).1 rfl)
  have hu2 : (userDataSeg b64 conv.instanceData).count ebsOpenerStr = 0 :=
    List.count_eq_zero.mpr (fun hm => (userDataSeg_clean3 b64 conv.instanceData _ hm).2.1 rfl)
  have hu3 : (userDataSeg b64 conv.instanceData).filter devLinePred = [] :=
    List.filter_eq_nil_iff.mpr (fun s hs => by
      simp [(userDataSeg_clean3 b64 conv.instanceData s hs).2.2])
  have hdev : ebsDevices conv.instanceData
      = conv.instanceData.blockDeviceMappings.filter
          (fun bd => !(bd.deviceName == rdn) && bd.ebs.isSome) := by
    unfold ebsDevices
    apply List.filter_congr
    intro bd _
    rw [hrdn]
    by_cases h : bd.deviceName = rdn <;> simp [h, bne]
  unfold genInstanceLines
  rw [hseg]
  refine ⟨_, rfl, ?_, ?_, ?_⟩
  · simp only [List.count_append]
    rw [count_zero_root (headSeg_clean _ _), count_zero_root (keySeg_clean _),
      count_zero_root (azSeg_clean _), count_zero_root (subnetSeg_clean _),
      count_zero_root hsgclean,
      count_zero_root (privateIpSeg_clean _), count_zero_root (iamSeg_clean _),
      count_zero_root (srcDstSeg_clean _), count_zero_root (monitoringSeg_clean _),
      count_zero_root (ebsOptSeg_clean _), count_zero_root (disableTermSeg_clean _),
      count_zero_root (tenancySeg_clean _), count_zero_root (pgroupSeg_clean _),
      count_zero_root (hostIdSeg_clean _), count_zero_root (creditSeg_clean _),
      count_zero_root (metadataSeg_clean _), count_zero_root (enclaveSeg_clean _),
      count_zero_root (capResSeg_clean _), count_zero_root (hibernationSeg_clean _),
      hu1, hroot.1, hebsf.1, count_zero_root (ephemeralSeg_clean _),
      count_zero_root (tagsSeg_clean _), count_zero_root trailerSeg_clean]
  · simp only [List.count_append]
    rw [count_zero_ebs (headSeg_clean _ _), count_zero_ebs (keySeg_clean _),
      count_zero_ebs (azSeg_clean _), count_zero_ebs (subnetSeg_clean _),
      count_zero_ebs hsgclean,
      count_zero_ebs (privateIpSeg_clean _), count_zero_ebs (iamSeg_clean _),
      count_zero_ebs (srcDstSeg_clean _), count_zero_ebs (monitoringSeg_clean _),
      count_zero_ebs (ebsOptSeg_clean _), count_zero_ebs (disableTermSeg_clean _),
      count_zero_ebs (tenancySeg_clean _), count_zero_ebs (pgroupSeg_clean _),
      count_zero_ebs (hostIdSeg_clean _), count_zero_ebs (creditSeg_clean _),
      count_zero_ebs (metadataSeg_clean _), count_zero_ebs (enclaveSeg_clean _),
      count_zero_ebs (capResSeg_clean _), count_zero_ebs (hibernationSeg_clean _),
      hu2, hroot.2.1, hebsf.2.1, count_zero_ebs (ephemeralSeg_clean _),
      count_zero_ebs (tagsSeg_clean _), count_zero_ebs trailerSeg_clean, hdev]
    omega
  · simp only [List.filter_append]
    rw [filter_dev_nil (headSeg_clean _ _), filter_dev_nil (keySeg_clean _),
      filter_dev_nil (azSeg_clean _), filter_dev_nil (subnetSeg_clean _),
      filter_dev_nil hsgclean,
      filter_dev_nil (privateIpSeg_clean _), filter_dev_nil (iamSeg_clean _),
      filter_dev_nil (srcDstSeg_clean _), filter_dev_nil (monitoringSeg_clean _),
      filter_dev_nil (ebsOptSeg_clean _), filter_dev_nil (disableTermSeg_clean _),
      filter_dev_nil (tenancySeg_clean _), filter_dev_nil (pgroupSeg_clean _),
      filter_dev_nil (hostIdSeg_clean _), filter_dev_nil (creditSeg_clean _),
      filter_dev_nil (metadataSeg_clean _), filter_dev_nil (enclaveSeg_clean _),
      filter_dev_nil (capResSeg_clean _), filter_dev_nil (hibernationSeg_clean _),
      hu3, hroot.2.2.1, hebsf.2.2.1, filter_dev_nil (ephemeralSeg_clean _),
      filter_dev_nil (tagsSeg_clean _), filter_dev_nil trailerSeg_clean, hdev]
    simp

/-- Witness for C3 at a concrete converter with a root device and one
additional volume-backed device. -/
theorem c3_witness :
    convStorage.instanceData.rootDeviceName = some "/dev/sda1" ∧
    (∃ ls, genInstanceLines (fun _ => none) convStorage = .ok ls ∧
      ls.count rootOpenerStr = 1 ∧
      ls.count ebsOpenerStr
        = (convStorage.instanceData.blockDeviceMappings.filter
            (fun bd => !(bd.deviceName == "/dev/sda1") && bd.ebs.isSome)).length ∧
      ls.filter devLinePred
        = (convStorage.instanceData.blockDeviceMappings.filter
            (fun bd => !(bd.deviceName == "/dev/sda1") && bd.ebs.isSome)).map
            (fun bd => devLineLit ++ bd.deviceName ++ "\"")) :=
  ⟨rfl, c3_storage_blocks (fun _ => none) convStorage "/dev/sda1" rfl (by decide)
    (by decide) (by decide) (Or.inl (by decide))⟩

theorem userDataSeg_eq (b64 : String → Option String) (inst : InstanceData) (ud : String)
    (hud : ((inst.userDataAttribute.map (fun a => a.value)).bind id).getD "" = ud)
    (hne : ud ≠ "") :
    userDataSeg b64 inst
      = ["\n  # User data (base64 encoded)", "  user_data_base64 = \"" ++ ud ++ "\""]
        ++ (match b64 ud with
            | some dec =>
              if dec.length < 500 then
                udHeaderStr :: (pySplitChar '\n' dec).map (fun l => "  # " ++ l)
              else []
            | none => []) := by
  unfold userDataSeg
  rw [hud]
  rw [if_pos (bne_iff_ne.mpr hne)]
  rfl

/-- C5: with a truthy user-data payload and a non-raising security-group
guard, the primary emitter always emits the encoded scalar field; the
decoded-comment header appears in the output exactly when the decoder
succeeds with a text of length under 500, in which case one comment line
is emitted per source line of the decoded text; a decode failure is
swallowed silently, leaving only the two encoded-field lines and no
error. -/
theorem c5_user_data (b64 : String → Option String) (conv : Converter) (ud : String)
    (hud : ((conv.instanceData.userDataAttribute.map (fun a => a.value)).bind id).getD "" = ud)
    (hne : ud ≠ "")
    (hsg : SgOk conv.instanceData) :
    ∃ ls, genInstanceLines b64 conv = .ok ls ∧
      ("  user_data_base64 = \"" ++ ud ++ "\"") ∈ ls ∧
      (udHeaderStr ∈ ls ↔ ∃ dec, b64 ud = some dec ∧ dec.length < 500) ∧
      (b64 ud = none → userDataSeg b64 conv.instanceData
        = ["\n  # User data (base64 encoded)", "  user_data_base64 = \"" ++ ud ++ "\""]) ∧
      (∀ dec, b64 ud = some dec → dec.length < 500 → userDataSeg b64 conv.instanceData
        = ["\n  # User data (base64 encoded)", "  user_data_base64 = \"" ++ ud ++ "\"",
           udHeaderStr] ++ (pySplitChar '\n' dec).map (fun l => "  # " ++ l)) ∧
      (∀ dec, b64 ud = some dec → ¬ dec.length < 500 → userDataSeg b64 conv.instanceData
        = ["\n  # User data (base64 encoded)", "  user_data_base64 = \"" ++ ud ++ "\""]) := by
  obtain ⟨sg, hseg⟩ := sgSegment_ok_of hsg
  have hsgclean := sgSegment_ok_clean hseg
  have hebsf := ebsSeg_facts conv
  have hueq := userDataSeg_eq b64 conv.instanceData ud hud hne
  unfold genInstanceLines
  rw [hseg]
  refine ⟨_, rfl, ?_, ⟨?_, ?_⟩, ?_, ?_, ?_⟩
  · have henc : ("  user_data_base64 = \"" ++ ud ++ "\"")
        ∈ userDataSeg b64 conv.instanceData := by
      rw [hueq]
      simp
    exact List.mem_append_left _ (List.mem_append_left _ (List.mem_append_left _
      (List.mem_append_left _ (List.mem_append_left _ (List.mem_append_right _ henc)))))
  · intro hm
    simp only [List.mem_append] at hm
    rcases hm with
      (((((((((((((((((((((((h | h) | h) | h) | h) | h) | h) | h) | h) | h) | h) | h)
        | h) | h) | h) | h) | h) | h) | h) | h) | h) | h) | h) | h) | h
    · exact absurd rfl (headSeg_clean _ _ _ h).2.2.2
    · exact absurd rfl (keySeg_clean _ _ h).2.2.2
    · exact absurd rfl (azSeg_clean _ _ h).2.2.2
    · exact absurd rfl (subnetSeg_clean _ _ h).2.2.2
    · exact absurd rfl (hsgclean _ h).2.2.2
    · exact absurd rfl (privateIpSeg_clean _ _ h).2.2.2
    · exact absurd rfl (iamSeg_clean _ _ h).2.2.2
    · exact absurd rfl (srcDstSeg_clean _ _ h).2.2.2
    · exact absurd rfl (monitoringSeg_clean _ _ h).2.2.2
    · exact absurd rfl (ebsOptSeg_clean _ _ h).2.2.2
    · exact absurd rfl (disableTermSeg_clean _ _ h).2.2.2
    · exact absurd rfl (tenancySeg_clean _ _ h).2.2.2
    · exact absurd rfl (pgroupSeg_clean _ _ h).2.2.2
    · exact absurd rfl (hostIdSeg_clean _ _ h).2.2.2
    · exact absurd rfl (creditSeg_clean _ _ h).2.2.2
    · exact absurd rfl (metadataSeg_clean _ _ h).2.2.2
    · exact absurd rfl (enclaveSeg_clean _ _ h).2.2.2
    · exact absurd rfl (capResSeg_clean _ _ h).2.2.2
    · exact absurd rfl (hibernationSeg_clean _ _ h).2.2.2
    · rw [hueq] at h
      rw [List.mem_append] at h
      rcases h with h | h
      · simp only [List.mem_cons, List.mem_singleton, List.not_mem_nil, or_false] at h
        rcases h with h | h
        · exact absurd h (by decide)
        · exact absurd h.symm (ne_lit3 "  user_data_base64 = \"" ud "\"" udHeaderStr 3
            (by decide) (by decide))
      · cases hb : b64 ud with
        | none =>
          rw [hb] at h
          exact absurd h (List.not_mem_nil _)
        | some dec =>
          by_cases hlen : dec.length < 500
          · exact ⟨dec, rfl, hlen⟩
          · rw [hb] at h
            have h2 : udHeaderStr
                ∈ (if dec.length < 500 then
                    udHeaderStr :: (pySplitChar '\n' dec).map (fun l => "  # " ++ l)
                   else []) := h
            rw [if_neg hlen] at h2
            exact absurd h2 (List.not_mem_nil _)
    · exact absurd h (rootSeg_not_ud conv)
    · exact absurd h hebsf.2.2.2
    · exact absurd rfl (ephemeralSeg_clean _ _ h).2.2.2
    · exact absurd rfl (tagsSeg_clean _ _ h).2.2.2
    · exact absurd rfl (trailerSeg_clean _ h).2.2.2
  · rintro ⟨dec, hb, hlen⟩
    have hin : udHeaderStr ∈ userDataSeg b64 conv.instanceData := by
      rw [hueq, hb]
      refine List.mem_append_right _ ?_
      exact (by rw [if_pos hlen]; exact List.mem_cons_self _ _ :
        udHeaderStr ∈ (if dec.length < 500 then
          udHeaderStr :: (pySplitChar '\n' dec).map (fun l => "  # " ++ l) else []))
    exact List.mem_append_left _ (List.mem_append_left _ (List.mem_append_left _
      (List.mem_append_left _ (List.mem_append_left _ (List.mem_append_right _ hin)))))
  · intro hb
    rw [hueq, hb]
    rfl
  · intro dec hb hlen
    rw [hueq, hb]
    have e2 : (match (some dec : Option String) with
        | some dec =>
          if dec.length < 500 then
            udHeaderStr :: (pySplitChar '\n' dec).map (fun l => "  # " ++ l)
          else []
        | none => ([] : List String))
        = (if dec.length < 500 then
            udHeaderStr :: (pySplitChar '\n' dec).map (fun l => "  # " ++ l)
          else []) := rfl
    rw [e2, if_pos hlen]
    rfl
  · intro dec hb hlen
    rw [hueq, hb]
    have e2 : (match (some dec : Option String) with
        | some dec =>
          if dec.length < 500 then
            udHeaderStr :: (pySplitChar '\n' dec).map (fun l => "  # " ++ l)
          else []
        | none => ([] : List String))
        = (if dec.length < 500 then
            udHeaderStr :: (pySplitChar '\n' dec).map (fun l => "  # " ++ l)
          else []) := rfl
    rw [e2, if_neg hlen]
    rfl

/-- Witness for C5 at a concrete converter with a payload and a decoder
that succeeds with a short text. -/
theorem c5_witness :
    ("SGVsbG8K" : String) ≠ "" ∧
    (∃ ls, genInstanceLines (fun _ => some "Hello\n") convUd = .ok ls ∧
      ("  user_data_base64 = \"" ++ "SGVsbG8K" ++ "\"") ∈ ls ∧
      (udHeaderStr ∈ ls ↔
        ∃ dec, (fun _ => some "Hello\n") "SGVsbG8K" = some dec ∧ dec.length < 500) ∧
      ((fun _ => some "Hello\n") "SGVsbG8K" = none →
        userDataSeg (fun _ => some "Hello\n") convUd.instanceData
          = ["\n  # User data (base64 encoded)",
             "  user_data_base64 = \"" ++ "SGVsbG8K" ++ "\""]) ∧
      (∀ dec, (fun _ => some "Hello\n") "SGVsbG8K" = some dec → dec.length < 500 →
        userDataSeg (fun _ => some "Hello\n") convUd.instanceData
          = ["\n  # User data (base64 encoded)",
             "  user_data_base64 = \"" ++ "SGVsbG8K" ++ "\"",
             udHeaderStr] ++ (pySplitChar '\n' dec).map (fun l => "  # " ++ l)) ∧
      (∀ dec, (fun _ => some "Hello\n") "SGVsbG8K" = some dec → ¬ dec.length < 500 →
        userDataSeg (fun _ => some "Hello\n") convUd.instanceData
          = ["\n  # User data (base64 encoded)",
             "  user_data_base64 = \"" ++ "SGVsbG8K" ++ "\""])) :=
  ⟨by decide, c5_user_data (fun _ => some "Hello\n") convUd "SGVsbG8K" rfl (by decide)
    (Or.inl (by decide))⟩

theorem eniRes_false2 (a b : String) (m : Nat) (hm : m ≤ a.data.length)
    (hm2 : m ≤ eniResLit.data.length) (h : a.data.take m ≠ eniResLit.data.take m) :
    eniResPred (a ++ b) = false := by
  unfold eniResPred
  exact take_pred_false eniResLit a b m hm hm2 h

theorem eniRes_false3 (lit v q : String) (m : Nat) (hm : m ≤ lit.data.length)
    (hm2 : m ≤ eniResLit.data.length) (h : lit.data.take m ≠ eniResLit.data.take m) :
    eniResPred (lit ++ v ++ q) = false := by
  rw [String.append_assoc]
  exact eniRes_false2 lit (v ++ q) m hm hm2 h

theorem eniRes_true3 (v q : String) :
    eniResPred ("resource \"aws_network_interface\" \"" ++ v ++ q) = true := by
  rw [String.append_assoc]
  unfold eniResPred
  exact take_pred_true eniResLit (v ++ q)

theorem eniAtt_false2 (a b : String) (m : Nat) (hm : m ≤ a.data.length)
    (hm2 : m ≤ eniAttachLit.data.length) (h : a.data.take m ≠ eniAttachLit.data.take m) :
    eniAttachPred (a ++ b) = false := by
  unfold eniAttachPred
  exact take_pred_false eniAttachLit a b m hm hm2 h

theorem eniAtt_false3 (lit v q : String) (m : Nat) (hm : m ≤ lit.data.length)
    (hm2 : m ≤ eniAttachLit.data.length) (h : lit.data.take m ≠ eniAttachLit.data.take m) :
    eniAttachPred (lit ++ v ++ q) = false := by
  rw [String.append_assoc]
  exact eniAtt_false2 lit (v ++ q) m hm hm2 h

theorem eniAtt_true3 (v q : String) :
    eniAttachPred ("resource \"aws_network_interface_attachment\" \"" ++ v ++ q) = true := by
  rw [String.append_assoc]
  unfold eniAttachPred
  exact take_pred_true eniAttachLit (v ++ q)

theorem eniOpt_preds (eni : NetworkInterfaceData) :
    ∀ s, (s ∈ (if !eni.groups.isEmpty then
        ["  security_groups = " ++ pyJsonDumps (eni.groups.map (fun g => g.groupId))] else [])
      ∨ s ∈ (if !eni.privateIpAddresses.isEmpty then
        (if !(eni.privateIpAddresses.map (fun ip => ip.privateIpAddress)).isEmpty then
          ["  private_ips     = "
            ++ pyJsonDumps (eni.privateIpAddresses.map (fun ip => ip.privateIpAddress))]
         else [])
        else [])
      ∨ s ∈ (if !(eni.sourceDestCheck.getD true) then ["  source_dest_check = false"] else [])
      ∨ s ∈ (if !eni.tagSet.isEmpty then ["\n" ++ formatTags eni.tagSet 2] else [])) →
      eniResPred s = false ∧ eniAttachPred s = false := by
  intro s hs
  rcases hs with h | h | h | h
  · have h := mem_of_ite_nil h
    simp only [List.mem_singleton] at h
    subst h
    exact ⟨eniRes_false2 "  security_groups = " _ 1 (by decide) (by decide) (by decide),
      eniAtt_false2 "  security_groups = " _ 1 (by decide) (by decide) (by decide)⟩
  · have h := mem_of_ite_nil h
    have h := mem_of_ite_nil h
    simp only [List.mem_singleton] at h
    subst h
    exact ⟨eniRes_false2 "  private_ips     = " _ 1 (by decide) (by decide) (by decide),
      eniAtt_false2 "  private_ips     = " _ 1 (by decide) (by decide) (by decide)⟩
  · have h := mem_of_ite_nil h
    simp only [List.mem_singleton] at h
    subst h
    exact ⟨by decide, by decide⟩
  · have h := mem_of_ite_nil h
    simp only [List.mem_singleton] at h
    subst h
    obtain ⟨r, hr⟩ := tags_elem_pre2 eni.tagSet
    rw [hr]
    exact ⟨eniRes_false2 "\n  tags = \x7b" r 1 (by decide) (by decide) (by decide),
      eniAtt_false2 "\n  tags = \x7b" r 1 (by decide) (by decide) (by decide)⟩

theorem eniBlockLines_counts (rn : String) (eni : NetworkInterfaceData) :
    (eniBlockLines rn eni).countP eniResPred = 1 ∧
    (eniBlockLines rn eni).countP eniAttachPred = 1 := by
  have hopt := eniOpt_preds eni
  unfold eniBlockLines
  have c1r : eniResPred ("# Additional Network Interface (device index "
      ++ toString ((eni.attachment.bind (fun a => a.deviceIndex)).getD 0) ++ ")") = false :=
    eniRes_false3 _ _ _ 1 (by decide) (by decide) (by decide)
  have c1a : eniAttachPred ("# Additional Network Interface (device index "
      ++ toString ((eni.attachment.bind (fun a => a.deviceIndex)).getD 0) ++ ")") = false :=
    eniAtt_false3 _ _ _ 1 (by decide) (by decide) (by decide)
  have c2r : eniResPred ("resource \"aws_network_interface\" \""
      ++ (rn ++ "_eni_" ++ toString ((eni.attachment.bind (fun a => a.deviceIndex)).getD 0))
      ++ "\" \x7b") = true := eniRes_true3 _ _
  have c2a : eniAttachPred ("resource \"aws_network_interface\" \""
      ++ (rn ++ "_eni_" ++ toString ((eni.attachment.bind (fun a => a.deviceIndex)).getD 0))
      ++ "\" \x7b") = false :=
    eniAtt_false3 _ _ _ 32 (by decide) (by decide) (by decide)
  have c3r : eniResPred ("  subnet_id       = \"" ++ eni.subnetId.getD "" ++ "\"") = false :=
    eniRes_false3 _ _ _ 1 (by decide) (by decide) (by decide)
  have c3a : eniAttachPred ("  subnet_id       = \"" ++ eni.subnetId.getD "" ++ "\"") = false :=
    eniAtt_false3 _ _ _ 1 (by decide) (by decide) (by decide)
  have c4r : eniResPred ("resource \"aws_network_interface_attachment\" \""
      ++ (rn ++ "_eni_" ++ toString ((eni.attachment.bind (fun a => a.deviceIndex)).getD 0))
      ++ "_attach\" \x7b") = false :=
    eniRes_false3 _ _ _ 32 (by decide) (by decide) (by decide)
  have c4a : eniAttachPred ("resource \"aws_network_interface_attachment\" \""
      ++ (rn ++ "_eni_" ++ toString ((eni.attachment.bind (fun a => a.deviceIndex)).getD 0))
      ++ "_attach\" \x7b") = true := eniAtt_true3 _ _
  have c5r : eniResPred ("  instance_id          = aws_instance." ++ rn ++ ".id") = false :=
    eniRes_false3 _ _ _ 1 (by decide) (by decide) (by decide)
  have c5a : eniAttachPred ("  instance_id          = aws_instance." ++ rn ++ ".id") = false :=
    eniAtt_false3 _ _ _ 1 (by decide) (by decide) (by decide)
  have c6r : eniResPred ("  network_interface_id = aws_network_interface."
      ++ (rn ++ "_eni_" ++ toString ((eni.attachment.bind (fun a => a.deviceIndex)).getD 0))
      ++ ".id") = false :=
    eniRes_false3 _ _ _ 1 (by decide) (by decide) (by decide)
  have c6a : eniAttachPred ("  network_interface_id = aws_network_interface."
      ++ (rn ++ "_eni_" ++ toString ((eni.attachment.bind (fun a => a.deviceIndex)).getD 0))
      ++ ".id") = false :=
    eniAtt_false3 _ _ _ 1 (by decide) (by decide) (by decide)
  have c7r : eniResPred ("  device_index         = "
      ++ toString ((eni.attachment.bind (fun a => a.deviceIndex)).getD 0)) = false :=
    eniRes_false2 _ _ 1 (by decide) (by decide) (by decide)
  have c7a : eniAttachPred ("  device_index         = "
      ++ toString ((eni.attachment.bind (fun a => a.deviceIndex)).getD 0)) = false :=
    eniAtt_false2 _ _ 1 (by decide) (by decide) (by decide)
  have hg1 : (if !eni.groups.isEmpty then
      ["  security_groups = " ++ pyJsonDumps (eni.groups.map (fun g => g.groupId))]
      else []).countP eniResPred = 0 :=
    List.countP_eq_zero.mpr (fun s hs => by
      simp [(hopt s (Or.inl hs)).1])
  have hg1a : (if !eni.groups.isEmpty then
      ["  security_groups = " ++ pyJsonDumps (eni.groups.map (fun g => g.groupId))]
      else []).countP eniAttachPred = 0 :=
    List.countP_eq_zero.mpr (fun s hs => by
      simp [(hopt s (Or.inl hs)).2])
  have hg2 : (if !eni.privateIpAddresses.isEmpty then
      (if !(eni.privateIpAddresses.map (fun ip => ip.privateIpAddress)).isEmpty then
        ["  private_ips     = "
          ++ pyJsonDumps (eni.privateIpAddresses.map (fun ip => ip.privateIpAddress))]
       else [])
      else []).countP eniResPred = 0 :=
    List.countP_eq_zero.mpr (fun s hs => by
      simp [(hopt s (Or.inr (Or.inl hs))).1])
  have hg2a : (if !eni.privateIpAddresses.isEmpty then
      (if !(eni.privateIpAddresses.map (fun ip => ip.privateIpAddress)).isEmpty then
        ["  private_ips     = "
          ++ pyJsonDumps (eni.privateIpAddresses.map (fun ip => ip.privateIpAddress))]
       else [])
      else []).countP eniAttachPred = 0 :=
    List.countP_eq_zero.mpr (fun s hs => by
      simp [(hopt s (Or.inr (Or.inl hs))).2])
  have hg3 : (if !(eni.sourceDestCheck.getD true) then
      ["  source_dest_check = false"] else []).countP eniResPred = 0 :=
    List.countP_eq_zero.mpr (fun s hs => by
      simp [(hopt s (Or.inr (Or.inr (Or.inl hs)))).1])
  have hg3a : (if !(eni.sourceDestCheck.getD true) then
      ["  source_dest_check = false"] else []).countP eniAttachPred = 0 :=
    List.countP_eq_zero.mpr (fun s hs => by
      simp [(hopt s (Or.inr (Or.inr (Or.inl hs)))).2])
  have hg4 : (if !eni.tagSet.isEmpty then
      ["\n" ++ formatTags eni.tagSet 2] else []).countP eniResPred = 0 :=
    List.countP_eq_zero.mpr (fun s hs => by
      simp [(hopt s (Or.inr (Or.inr (Or.inr hs)))).1])
  have hg4a : (if !eni.tagSet.isEmpty then
      ["\n" ++ formatTags eni.tagSet 2] else []).countP eniAttachPred = 0 :=
    List.countP_eq_zero.mpr (fun s hs => by
      simp [(hopt s (Or.inr (Or.inr (Or.inr hs)))).2])
  constructor
  · simp only [List.countP_append, List.countP_cons, List.countP_nil,
      hg1, hg2, hg3, hg4, c1r, c2r, c3r, c4r, c5r, c6r, c7r]
    decide
  · simp only [List.countP_append, List.countP_cons, List.countP_nil,
      hg1a, hg2a, hg3a, hg4a, c1a, c2a, c3a, c4a, c5a, c6a, c7a]
    decide

theorem eniBlocks_counts (rn : String) (l : List NetworkInterfaceData) :
    (eniBlocks rn l).countP eniResPred = l.length ∧
    (eniBlocks rn l).countP eniAttachPred = l.length := by
  induction l with
  | nil => exact ⟨rfl, rfl⟩
  | cons e rest ih =>
    have hb := eniBlockLines_counts rn e
    have hunf : eniBlocks rn (e :: rest) = eniBlockLines rn e ++ eniBlocks rn rest := rfl
    rw [hunf]
    constructor
    · rw [List.countP_append, hb.1, ih.1, List.length_cons]
      omega
    · rw [List.countP_append, hb.2, ih.2, List.length_cons]
      omega

theorem sortedEnis_perm (conv : Converter) :
    (sortedEnis conv).Perm conv.networkInterfacesData :=
  List.perm_insertionSort _ _

theorem sortedEnis_sorted (conv : Converter) :
    List.Sorted (fun a b => eniSortKey a ≤ eniSortKey b) (sortedEnis conv) := by
  haveI : IsTotal NetworkInterfaceData (fun a b => eniSortKey a ≤ eniSortKey b) :=
    ⟨fun a b => Nat.le_total _ _⟩
  haveI : IsTrans NetworkInterfaceData (fun a b => eniSortKey a ≤ eniSortKey b) :=
    ⟨fun _ _ _ => Nat.le_trans⟩
  exact List.sorted_insertionSort _ _

theorem sortedKeys_sorted (conv : Converter) :
    List.Sorted (· ≤ ·) ((sortedEnis conv).map eniSortKey) :=
  List.Pairwise.map eniSortKey (fun _ _ h => h) (sortedEnis_sorted conv)

/-- C4: the satellite interface emitter skips exactly the interface with
the minimum attachment device index and emits, for every other
interface, one standalone interface resource plus one attachment block,
in strictly ascending device-index order; for at most one interface no
satellite is emitted. -/
theorem c4_satellite_interfaces (conv : Converter)
    (hnd : (conv.networkInterfacesData.map eniSortKey).Nodup) :
    (2 ≤ conv.networkInterfacesData.length →
      generateNetworkInterfaces conv
        = pyJoin "\n" (eniBlocks (resourceNameOf conv) (satelliteEnis conv))) ∧
    (conv.networkInterfacesData.length ≤ 1 →
      generateNetworkInterfaces conv = "" ∧ satelliteEnis conv = []) ∧
    List.Sorted (· < ·) ((satelliteEnis conv).map eniSortKey) ∧
    (eniBlocks (resourceNameOf conv) (satelliteEnis conv)).countP eniResPred
      = (satelliteEnis conv).length ∧
    (eniBlocks (resourceNameOf conv) (satelliteEnis conv)).countP eniAttachPred
      = (satelliteEnis conv).length ∧
    ∀ m, m ∈ conv.networkInterfacesData.map eniSortKey →
      (∀ j ∈ conv.networkInterfacesData.map eniSortKey, m ≤ j) →
      ((∀ k, k ∈ (satelliteEnis conv).map eniSortKey ↔
          (k ∈ conv.networkInterfacesData.map eniSortKey ∧ m < k)) ∧
        m ∉ (satelliteEnis conv).map eniSortKey) := by
  have hlen : (sortedEnis conv).length = conv.networkInterfacesData.length :=
    (sortedEnis_perm conv).length_eq
  have hkperm : ((sortedEnis conv).map eniSortKey).Perm
      (conv.networkInterfacesData.map eniSortKey) := (sortedEnis_perm conv).map _
  have hknd : ((sortedEnis conv).map eniSortKey).Nodup := hkperm.nodup_iff.mpr hnd
  have hklt : List.Sorted (· < ·) ((sortedEnis conv).map eniSortKey) :=
    (sortedKeys_sorted conv).lt_of_le hknd
  have hsatmap : (satelliteEnis conv).map eniSortKey
      = ((sortedEnis conv).map eniSortKey).drop 1 := by
    unfold satelliteEnis
    rw [List.map_drop]
  refine ⟨?_, ?_, ?_, (eniBlocks_counts _ _).1, (eniBlocks_counts _ _).2, ?_⟩
  · intro h2
    unfold generateNetworkInterfaces
    rw [if_neg (by omega)]
    have hsatlen : 1 ≤ (satelliteEnis conv).length := by
      unfold satelliteEnis
      rw [List.length_drop, hlen]
      omega
    cases hsat : satelliteEnis conv with
    | nil => rw [hsat] at hsatlen; simp at hsatlen
    | cons e rest =>
      rw [if_neg (by
        have : eniBlocks (resourceNameOf conv) (e :: rest)
            = eniBlockLines (resourceNameOf conv) e ++ eniBlocks (resourceNameOf conv) rest :=
          rfl
        rw [this]
        simp [eniBlockLines])]
  · intro h1
    have hsat : satelliteEnis conv = [] := by
      unfold satelliteEnis
      apply List.eq_nil_of_length_eq_zero
      rw [List.length_drop, hlen]
      omega
    constructor
    · unfold generateNetworkInterfaces
      rw [if_pos h1]
    · exact hsat
  · rw [hsatmap]
    exact hklt.sublist (List.drop_sublist 1 _)
  · intro m hm hmin
    have hmem_iff : ∀ k, k ∈ (sortedEnis conv).map eniSortKey
        ↔ k ∈ conv.networkInterfacesData.map eniSortKey := fun k => hkperm.mem_iff
    cases hsk : (sortedEnis conv).map eniSortKey with
    | nil =>
      exfalso
      have : m ∈ (sortedEnis conv).map eniSortKey := (hmem_iff m).mpr hm
      rw [hsk] at this
      exact List.not_mem_nil m this
    | cons k0 rest =>
      have hrest : (satelliteEnis conv).map eniSortKey = rest := by
        rw [hsatmap, hsk]
        rfl
      have hk0mem : k0 ∈ conv.networkInterfacesData.map eniSortKey := by
        rw [← hmem_iff]
        rw [hsk]
        exact List.mem_cons_self k0 rest
      have hk0le : ∀ b ∈ rest, k0 < b := by
        have := hklt
        rw [hsk] at this
        exact List.rel_of_sorted_cons this
      have hk0m : k0 = m := by
        have h1 : m ≤ k0 := hmin k0 hk0mem
        have h2 : k0 ≤ m := by
          have hm2 : m ∈ (sortedEnis conv).map eniSortKey := (hmem_iff m).mpr hm
          rw [hsk] at hm2
          rcases List.mem_cons.mp hm2 with h | h
          · omega
          · exact Nat.le_of_lt (hk0le m h)
        omega
      subst hk0m
      rw [hrest]
      constructor
      · intro k
        constructor
        · intro hk
          refine ⟨?_, hk0le k hk⟩
          rw [← hmem_iff, hsk]
          exact List.mem_cons_of_mem k0 hk
        · rintro ⟨hk1, hk2⟩
          have : k ∈ (sortedEnis conv).map eniSortKey := (hmem_iff k).mpr hk1
          rw [hsk] at this
          rcases List.mem_cons.mp this with h | h
          · omega
          · exact h
      · intro hm2
        exact absurd (hk0le k0 hm2) (by omega)

/-- Witness for C4 at a concrete converter with interfaces of device
indices 1, 0, 2 given in scrambled order. -/
theorem c4_witness :
    (convEni.networkInterfacesData.map eniSortKey).Nodup ∧
    ((2 ≤ convEni.networkInterfacesData.length →
      generateNetworkInterfaces convEni
        = pyJoin "\n" (eniBlocks (resourceNameOf convEni) (satelliteEnis convEni))) ∧
    (convEni.networkInterfacesData.length ≤ 1 →
      generateNetworkInterfaces convEni = "" ∧ satelliteEnis convEni = []) ∧
    List.Sorted (· < ·) ((satelliteEnis convEni).map eniSortKey) ∧
    (eniBlocks (resourceNameOf convEni) (satelliteEnis convEni)).countP eniResPred
      = (satelliteEnis convEni).length ∧
    (eniBlocks (resourceNameOf convEni) (satelliteEnis convEni)).countP eniAttachPred
      = (satelliteEnis convEni).length ∧
    ∀ m, m ∈ convEni.networkInterfacesData.map eniSortKey →
      (∀ j ∈ convEni.networkInterfacesData.map eniSortKey, m ≤ j) →
      ((∀ k, k ∈ (satelliteEnis convEni).map eniSortKey ↔
          (k ∈ convEni.networkInterfacesData.map eniSortKey ∧ m < k)) ∧
        m ∉ (satelliteEnis convEni).map eniSortKey)) :=
  ⟨by decide, c4_satellite_interfaces convEni (by decide)⟩
